import Mathlib

/-!
Verification of the MAX2870 frequency-calculator scripts
(MAX2870pf.py, the fixed-reference "advanced precision" solver, and
MAX2870spf.py, the reference-sweep "super precision" solver).

The scripts are numeric search procedures over Python floats.  Here they are
shallowly embedded over exact rationals: every arithmetic operation of the
source is mapped to the corresponding operation on the rationals, loops become
fuel-indexed structural recursions (the fuel equals the number of iterations of
the Python `range`, so no behaviour is lost), and the mutable globals of each
script become explicit state records whose fields keep the source names.
-/

set_option allowUnsafeReducibility true in
attribute [semireducible] Rat.mul Rat.add Rat.sub Rat.inv

namespace MAX2870

/-- Python `int(x)` truncates toward zero. -/
def pyint (x : ℚ) : ℤ := if 0 ≤ x then ⌊x⌋ else ⌈x⌉

/-- Embedding of the RF-to-VCO normalization loop shared verbatim by both
scripts (`while DesiredFrequency < (MaximumRFFrequency / 2): ...`): doubles
the frequency, counting the doublings, until it is at least 3 GHz.  Returns
the final frequency and the number of doublings (the divider exponent).
The fuel bounds the number of doublings; 40 is ample for all in-range
inputs (see the stabilization theorem for claim C10). -/
def vcoLoop : ℚ → ℕ → ℚ × ℕ
  | x, 0 => (x, 0)
  | x, fuel+1 =>
    if x < 6000000000 / 2 then
      let p := vcoLoop (2 * x) fuel
      (p.1, p.2 + 1)
    else (x, 0)

/-- Embedding of the FRAC computation shared verbatim by both scripts:
`FracToMatch = FrequencyRemainder / ModFrequencyStep`, round half up
(`if ((FracToMatch - int(FracToMatch)) >= 0.5): ceil else floor`), then clamp
to `ModToMatch - 1` when the rounded value reaches `ModToMatch`. -/
def FracToMatchOf (FrequencyRemainder ModFrequencyStep : ℚ) (ModToMatch : ℕ) : ℤ :=
  let FracToMatch := FrequencyRemainder / ModFrequencyStep
  let rounded : ℤ :=
    if (1 : ℚ)/2 ≤ FracToMatch - (pyint FracToMatch : ℚ) then ⌈FracToMatch⌉ else ⌊FracToMatch⌋
  if (ModToMatch : ℤ) ≤ rounded then (ModToMatch : ℤ) - 1 else rounded

end MAX2870

namespace MAX2870pf

open MAX2870

/- Chip limits of MAX2870pf.py (lines 11-20), including the fractional-mode
overrides installed at lines 73-75 before the fractional search. -/
def MaximumR : ℕ := 1023
def MinimumInt : ℚ := 16
def MaximumInt : ℚ := 65535
def MaximumMod : ℕ := 4095
def MaximumPFDFrequency : ℚ := 105000000
def MinimumPFDFrequency : ℚ := 125000
def MinimumRFFrequency : ℚ := 23475000
def MaximumRFFrequency : ℚ := 6000000000
def MinimumReferenceFrequency : ℚ := 10000000
def MaximumReferenceFrequency : ℚ := 200000000
def FracMinimumInt : ℤ := 19
def FracMaximumInt : ℤ := 4091
def FracMaximumPFDFrequency : ℚ := 50000000

/-- Mutable globals of MAX2870pf.py that the fractional-mode search reads and
writes (FrequencyError, NegativeFrequencyError, Matching*, MatchAttempted). -/
structure PFState where
  FrequencyError : ℚ
  NegativeFrequencyError : Bool
  MatchingR : ℕ
  MatchingInt : ℤ
  MatchingMod : ℕ
  MatchingFrac : ℤ
  MatchAttempted : Bool
deriving DecidableEq

/-- Initial global state before the fractional search: `FrequencyError` is
seeded with the reference frequency (line 43); `MatchingR = 1`,
`MatchingInt = 1`, `MatchingMod = 2`, `MatchingFrac = 0` (lines 27-30);
`MatchAttempted` carries whatever the integer-mode loop left behind. -/
def initPFState (ReferenceFrequency : ℚ) (ma : Bool) : PFState :=
  { FrequencyError := ReferenceFrequency, NegativeFrequencyError := false,
    MatchingR := 1, MatchingInt := 1, MatchingMod := 2, MatchingFrac := 0,
    MatchAttempted := ma }

/-- Signed frequency error of the fractional candidate at modulus `ModToMatch`
exactly as the source computes it (lines 86-94):
`FrequencyError = FrequencyRemainder - ModFrequencyStep * FracToMatch`. -/
def CandidateError (pfd FrequencyRemainder : ℚ) (ModToMatch : ℕ) : ℚ :=
  let ModFrequencyStep := pfd / (ModToMatch : ℚ)
  FrequencyRemainder - ModFrequencyStep * (FracToMatchOf FrequencyRemainder ModFrequencyStep ModToMatch : ℚ)

/-- Inner MOD loop of the fractional search of MAX2870pf.py (lines 83-107):
`for ModToMatch in range(MaximumMod + 1)`, skipping `ModToMatch < 2`.  Each
candidate overwrites `FrequencyError` and `NegativeFrequencyError`; the
`Matching*` fields are overwritten only when the candidate error is below
`OldFrequencyError`, which is the value `FrequencyError` had at the start of
the iteration (i.e. the previous candidate's error).  A zero error stops the
loop. -/
def ModLoopPF (pfd FrequencyRemainder : ℚ) (RtoMatch : ℕ) (IntTemp : ℤ) :
    ℕ → ℕ → PFState → PFState
  | _, 0, s => s
  | ModToMatch, fuel+1, s =>
    if ModToMatch < 2 then ModLoopPF pfd FrequencyRemainder RtoMatch IntTemp (ModToMatch+1) fuel s
    else
      let OldFrequencyError := s.FrequencyError
      let e := CandidateError pfd FrequencyRemainder ModToMatch
      let FrequencyError := if e < 0 then -e else e
      let s1 :=
        if FrequencyError < OldFrequencyError then
          { FrequencyError := FrequencyError, NegativeFrequencyError := decide (e < 0),
            MatchingR := RtoMatch, MatchingInt := IntTemp,
            MatchingMod := ModToMatch,
            MatchingFrac := FracToMatchOf FrequencyRemainder (pfd / (ModToMatch : ℚ)) ModToMatch,
            MatchAttempted := s.MatchAttempted }
        else
          { s with FrequencyError := FrequencyError, NegativeFrequencyError := decide (e < 0) }
      if s1.FrequencyError = 0 then s1
      else ModLoopPF pfd FrequencyRemainder RtoMatch IntTemp (ModToMatch+1) fuel s1

/-- Outer R loop of the fractional search of MAX2870pf.py (lines 76-115):
`for RtoMatch in range(MaximumR + 1)`.  `RtoMatch = 0` is skipped; an
out-of-range PFD frequency at `RtoMatch > 0` terminates the loop (lines
113-115); `IntTemp` above `MaximumInt` terminates it (lines 111-112), below
`MinimumInt` the loop continues; a zero frequency error after the MOD loop
terminates it (lines 108-109). -/
def RLoopPF (ReferenceFrequency DesiredFrequency : ℚ) : ℕ → ℕ → PFState → PFState
  | _, 0, s => s
  | RtoMatch, fuel+1, s =>
    if RtoMatch = 0 then RLoopPF ReferenceFrequency DesiredFrequency (RtoMatch+1) fuel s
    else
      let pfd := ReferenceFrequency / (RtoMatch : ℚ)
      if MinimumPFDFrequency ≤ pfd ∧ pfd ≤ FracMaximumPFDFrequency then
        let IntTemp : ℤ := ⌊DesiredFrequency / pfd⌋
        if FracMinimumInt ≤ IntTemp ∧ IntTemp ≤ FracMaximumInt then
          let FrequencyRemainder := DesiredFrequency - (IntTemp : ℚ) * pfd
          let s1 := ModLoopPF pfd FrequencyRemainder RtoMatch IntTemp 0 4096
            { s with MatchAttempted := true }
          if s1.FrequencyError = 0 then s1
          else RLoopPF ReferenceFrequency DesiredFrequency (RtoMatch+1) fuel s1
        else if FracMaximumInt < IntTemp then s
        else RLoopPF ReferenceFrequency DesiredFrequency (RtoMatch+1) fuel s
      else s

/-- Integer-mode R loop of MAX2870pf.py (lines 53-68):
`for RtoMatch in range(MaximumR + 1)`.  `RtoMatch = 0` is skipped; an
out-of-range PFD frequency at `RtoMatch > 0` terminates the loop with no
match (lines 66-68); `IntTemp` out of `[MinimumInt, MaximumInt]` terminates
it (lines 64-65); an exact integer `IntTemp` is returned together with its R
(lines 58-63).  The second component is the `MatchAttempted` flag, set as
soon as some `IntTemp` is within range (line 57). -/
def IntLoopPF (ReferenceFrequency DesiredFrequency : ℚ) :
    ℕ → ℕ → Bool → Option (ℕ × ℚ) × Bool
  | _, 0, ma => (none, ma)
  | RtoMatch, fuel+1, ma =>
    if RtoMatch = 0 then IntLoopPF ReferenceFrequency DesiredFrequency (RtoMatch+1) fuel ma
    else
      let pfd := ReferenceFrequency / (RtoMatch : ℚ)
      if MinimumPFDFrequency ≤ pfd ∧ pfd ≤ MaximumPFDFrequency then
        let IntTemp := DesiredFrequency / pfd
        if MinimumInt ≤ IntTemp ∧ IntTemp ≤ MaximumInt then
          if IntTemp.den = 1 then (some (RtoMatch, IntTemp), true)
          else IntLoopPF ReferenceFrequency DesiredFrequency (RtoMatch+1) fuel true
        else (none, ma)
      else (none, ma)

/-- Result of one run of MAX2870pf.py, mirroring its printed reports: the two
out-of-range rejections (lines 136-139), the no-match diagnostic (lines
134-135), an exact integer-mode result (integer branch of lines 117-133,
where `MatchingMod` and `MatchingFrac` keep their initial values 2 and 0),
or a fractional-mode result carrying the final global state. -/
inductive PFOutcome where
  | ReferenceFrequencyOutOfRange : PFOutcome
  | RFFrequencyOutOfRange : PFOutcome
  | NoMatch : PFOutcome
  | IntegerResult (MatchingR : ℕ) (MatchingInt : ℚ) (MatchingMod : ℕ) (MatchingFrac : ℤ)
      (MatchingDivider : ℕ) (MatchingDivider_PowerOf2 : ℕ) : PFOutcome
  | FractionalResult (s : PFState) (MatchingDivider : ℕ) (MatchingDivider_PowerOf2 : ℕ) : PFOutcome
deriving DecidableEq

/-- In-range part of MAX2870pf.py (lines 47-135): normalize the RF frequency
to the VCO range, try integer mode, else run the fractional search. -/
def pfRun (ReferenceFrequency DesiredFrequency : ℚ) : PFOutcome :=
  let p := vcoLoop DesiredFrequency 40
  match IntLoopPF ReferenceFrequency p.1 0 1024 false with
  | (some rn, _) => .IntegerResult rn.1 rn.2 2 0 (2 ^ p.2) p.2
  | (none, ma) =>
    let s := RLoopPF ReferenceFrequency p.1 0 1024 (initPFState ReferenceFrequency ma)
    if s.MatchAttempted then .FractionalResult s (2 ^ p.2) p.2 else .NoMatch

/-- Whole run of MAX2870pf.py: the two entry range checks (lines 45-46,
both bounds inclusive), then the search. -/
def pfCalculate (ReferenceFrequency DesiredFrequency : ℚ) : PFOutcome :=
  if MinimumReferenceFrequency ≤ ReferenceFrequency ∧
      ReferenceFrequency ≤ MaximumReferenceFrequency then
    if MinimumRFFrequency ≤ DesiredFrequency ∧ DesiredFrequency ≤ MaximumRFFrequency then
      pfRun ReferenceFrequency DesiredFrequency
    else .RFFrequencyOutOfRange
  else .ReferenceFrequencyOutOfRange

/-- Frequency error printed for a fractional result (lines 119-124): the
stored magnitude, negated when `NegativeFrequencyError` is set, divided by
the RF divider. -/
def pfReportedFrequencyError (s : PFState) (MatchingDivider : ℕ) : ℚ :=
  (if s.NegativeFrequencyError then -s.FrequencyError else s.FrequencyError) /
    (MatchingDivider : ℚ)

/-- Signed residual of the register tuple `(r, n, mod, frac)` against the VCO
frequency, as in the specification:
`vco - (reference/r) * (n + frac/mod)`. -/
def TupleResidual (ReferenceFrequency vco : ℚ) (r : ℕ) (n : ℚ) (m : ℕ) (frac : ℤ) : ℚ :=
  vco - (ReferenceFrequency / (r : ℚ)) * (n + (frac : ℚ) / (m : ℚ))

/-- Whether R is a legal integer-mode candidate with an exact integer ratio:
PFD frequency within limits, `IntTemp = vco/pfd` within `[16, 65535]`, and
`IntTemp` an exact integer. -/
def IntegerValidExact (ReferenceFrequency DesiredFrequency : ℚ) (r : ℕ) : Prop :=
  (MinimumPFDFrequency ≤ ReferenceFrequency / (r : ℚ) ∧
    ReferenceFrequency / (r : ℚ) ≤ MaximumPFDFrequency) ∧
  (MinimumInt ≤ DesiredFrequency / (ReferenceFrequency / (r : ℚ)) ∧
    DesiredFrequency / (ReferenceFrequency / (r : ℚ)) ≤ MaximumInt) ∧
  (DesiredFrequency / (ReferenceFrequency / (r : ℚ))).den = 1

instance (ReferenceFrequency DesiredFrequency : ℚ) (r : ℕ) :
    Decidable (IntegerValidExact ReferenceFrequency DesiredFrequency r) := by
  unfold IntegerValidExact; infer_instance

end MAX2870pf

namespace MAX2870spf

open MAX2870

/- Chip limits of MAX2870spf.py (lines 11-20).  The integer-mode pass resets
`MaximumPFDFrequency` to 105 MHz (line 74) and the fractional pass to 50 MHz
with the fractional Int bounds (lines 98-100); those effective values are the
constants used by the respective loops below. -/
def MaximumR : ℕ := 1023
def MinimumInt : ℚ := 16
def MaximumInt : ℚ := 65535
def MaximumMod : ℕ := 4095
def IntMaximumPFDFrequency : ℚ := 105000000
def MinimumPFDFrequency : ℚ := 125000
def MinimumRFFrequency : ℚ := 2347500
def MaximumRFFrequency : ℚ := 6000000000
def MinimumReferenceFrequency : ℤ := 10000000
def MaximumReferenceFrequency : ℤ := 200000000
def FracMinimumInt : ℤ := 19
def FracMaximumInt : ℤ := 4091
def FracMaximumPFDFrequency : ℚ := 50000000

/-- Mutable globals of MAX2870spf.py threaded through the reference sweep. -/
structure SPFState where
  FrequencyError : ℚ
  NegativeFrequencyError : Bool
  IntegerMode : Bool
  FractionalMode : Bool
  MatchAttempted : Bool
  FinalReferenceFrequency : ℚ
  MatchingR : ℕ
  MatchingInt : ℚ
  MatchingMod : ℕ
  MatchingFrac : ℤ
  MatchingDivider_PowerOf2 : ℕ
  DesiredFrequency : ℚ
deriving DecidableEq

/-- Initial globals of MAX2870spf.py (lines 22-34): `FrequencyError` is
seeded with `MaximumReferenceFrequency` (line 27), `IntegerMode` is true. -/
def spfInitialState (DesiredFrequency : ℚ) : SPFState :=
  { FrequencyError := 200000000, NegativeFrequencyError := false, IntegerMode := true,
    FractionalMode := true, MatchAttempted := false, FinalReferenceFrequency := 0,
    MatchingR := 1, MatchingInt := 1, MatchingMod := 2, MatchingFrac := 0,
    MatchingDivider_PowerOf2 := 0, DesiredFrequency := DesiredFrequency }

/-- Signed frequency error of the fractional candidate at modulus
`ModToMatch`, exactly as MAX2870spf.py computes `NewFrequencyError`
(lines 110-118). -/
def CandidateError (pfd FrequencyRemainder : ℚ) (ModToMatch : ℕ) : ℚ :=
  let ModFrequencyStep := pfd / (ModToMatch : ℚ)
  FrequencyRemainder - ModFrequencyStep * (FracToMatchOf FrequencyRemainder ModFrequencyStep ModToMatch : ℚ)

/-- Inner MOD loop of the fractional search of MAX2870spf.py (lines 108-132):
unlike the fixed-reference script, `FrequencyError` is only overwritten
together with the `Matching*` fields when `NewFrequencyError` is strictly
below it, so it is a true best-so-far; `NegativeFrequencyError` however is
overwritten by every candidate.  A zero best error stops the loop. -/
def ModLoopSPF (ReferenceFrequencyToMatch pfd FrequencyRemainder : ℚ)
    (RtoMatch : ℕ) (IntTemp : ℤ) : ℕ → ℕ → SPFState → SPFState
  | _, 0, s => s
  | ModToMatch, fuel+1, s =>
    if ModToMatch < 2 then
      ModLoopSPF ReferenceFrequencyToMatch pfd FrequencyRemainder RtoMatch IntTemp (ModToMatch+1) fuel s
    else
      let e := CandidateError pfd FrequencyRemainder ModToMatch
      let NewFrequencyError := if e < 0 then -e else e
      let s1 :=
        if NewFrequencyError < s.FrequencyError then
          { s with
            FinalReferenceFrequency := ReferenceFrequencyToMatch,
            FrequencyError := NewFrequencyError, NegativeFrequencyError := decide (e < 0),
            MatchingR := RtoMatch, MatchingInt := (IntTemp : ℚ),
            MatchingMod := ModToMatch,
            MatchingFrac := FracToMatchOf FrequencyRemainder (pfd / (ModToMatch : ℚ)) ModToMatch }
        else { s with NegativeFrequencyError := decide (e < 0) }
      if s1.FrequencyError = 0 then s1
      else ModLoopSPF ReferenceFrequencyToMatch pfd FrequencyRemainder RtoMatch IntTemp (ModToMatch+1) fuel s1

/-- Outer R loop of the fractional search of MAX2870spf.py (lines 101-134):
`RtoMatch = 0` and out-of-range PFD frequencies are skipped (the loop
continues with the next R); `IntTemp` above `FracMaximumInt` terminates the
loop (lines 111-112), below `FracMinimumInt` it continues; a zero best error
terminates it (lines 133-134). -/
def RLoopSPF (ReferenceFrequencyToMatch : ℚ) : ℕ → ℕ → SPFState → SPFState
  | _, 0, s => s
  | RtoMatch, fuel+1, s =>
    if RtoMatch = 0 then RLoopSPF ReferenceFrequencyToMatch (RtoMatch+1) fuel s
    else
      let pfd := ReferenceFrequencyToMatch / (RtoMatch : ℚ)
      if MinimumPFDFrequency ≤ pfd ∧ pfd ≤ FracMaximumPFDFrequency then
        let IntTemp : ℤ := ⌊s.DesiredFrequency / pfd⌋
        if FracMinimumInt ≤ IntTemp ∧ IntTemp ≤ FracMaximumInt then
          let FrequencyRemainder := s.DesiredFrequency - (IntTemp : ℚ) * pfd
          let s1 := ModLoopSPF ReferenceFrequencyToMatch pfd FrequencyRemainder RtoMatch IntTemp 0 4096
            { s with MatchAttempted := true }
          if s1.FrequencyError = 0 then s1
          else RLoopSPF ReferenceFrequencyToMatch (RtoMatch+1) fuel s1
        else if FracMaximumInt < IntTemp then s
        else RLoopSPF ReferenceFrequencyToMatch (RtoMatch+1) fuel s
      else RLoopSPF ReferenceFrequencyToMatch (RtoMatch+1) fuel s

/-- Integer-mode R loop of MAX2870spf.py (lines 75-90): unlike the
fixed-reference script, an out-of-range PFD frequency only skips that R (the
loop has no `else: break` on the PFD test); `IntTemp` out of range
terminates the loop (lines 89-90); an exact integer `IntTemp` is returned
with its R.  The Bool component is the `MatchAttempted` flag (line 79). -/
def IntLoopSPF (ReferenceFrequencyToMatch DesiredFrequency : ℚ) :
    ℕ → ℕ → Bool → Option (ℕ × ℚ) × Bool
  | _, 0, ma => (none, ma)
  | RtoMatch, fuel+1, ma =>
    if RtoMatch = 0 then IntLoopSPF ReferenceFrequencyToMatch DesiredFrequency (RtoMatch+1) fuel ma
    else
      let pfd := ReferenceFrequencyToMatch / (RtoMatch : ℚ)
      if MinimumPFDFrequency ≤ pfd ∧ pfd ≤ IntMaximumPFDFrequency then
        let IntTemp := DesiredFrequency / pfd
        if MinimumInt ≤ IntTemp ∧ IntTemp ≤ MaximumInt then
          if IntTemp.den = 1 then (some (RtoMatch, IntTemp), true)
          else IntLoopSPF ReferenceFrequencyToMatch DesiredFrequency (RtoMatch+1) fuel true
        else (none, ma)
      else IntLoopSPF ReferenceFrequencyToMatch DesiredFrequency (RtoMatch+1) fuel ma

/-- One iteration of the reference sweep of MAX2870spf.py (lines 58-136) for
the reference frequency `ReferenceFrequencyToMatch`.  Returns the new state
and whether the sweep stops (`break`): it stops when the RF frequency is out
of range (lines 68-70), when integer mode found an exact match (lines
91-92), or when the best error reaches zero (lines 135-136).
`FractionalMode` is reset to true at every iteration (line 62); the doubling
loop reruns every iteration (lines 64-67) but only accumulates on the first;
integer mode runs only while `IntegerMode` is still true (line 73), and the
fractional pass permanently clears `IntegerMode` (line 96). -/
def SweepStep (ReferenceFrequencyToMatch : ℚ) (s : SPFState) : SPFState × Bool :=
  let s := { s with FractionalMode := true }
  if MinimumRFFrequency ≤ s.DesiredFrequency ∧ s.DesiredFrequency ≤ MaximumRFFrequency then
    let p := vcoLoop s.DesiredFrequency 40
    let s := { s with
      DesiredFrequency := p.1,
      MatchingDivider_PowerOf2 := s.MatchingDivider_PowerOf2 + p.2 }
    let s :=
      if s.IntegerMode then
        match IntLoopSPF ReferenceFrequencyToMatch s.DesiredFrequency 0 1024 s.MatchAttempted with
        | (some rn, _) =>
          { s with
            FinalReferenceFrequency := ReferenceFrequencyToMatch,
            MatchAttempted := true, FractionalMode := false,
            MatchingR := rn.1, MatchingInt := rn.2, MatchingMod := 2, MatchingFrac := 0 }
        | (none, ma) => { s with MatchAttempted := ma }
      else s
    if s.FractionalMode = false then (s, true)
    else
      let s := { s with IntegerMode := false }
      let s := RLoopSPF ReferenceFrequencyToMatch 0 1024 s
      if s.FrequencyError = 0 then (s, true) else (s, false)
  else (s, true)

/-- Reference sweep loop of MAX2870spf.py (line 58): one `SweepStep` per
1 Hz step, stopping early when a step says so. -/
def SweepLoop : ℕ → ℤ → SPFState → SPFState
  | 0, _, s => s
  | fuel+1, ref, s =>
    let p := SweepStep (ref : ℚ) s
    if p.2 then p.1 else SweepLoop fuel (ref + 1) p.1

/-- Step-count clamp of MAX2870spf.py (lines 48-50): a step count above
`MaximumReferenceFrequency - MinimumReferenceFrequency` is clamped to that
difference. -/
def ReferenceStepsClamped (ReferenceSteps : ℤ) : ℤ :=
  if MaximumReferenceFrequency - MinimumReferenceFrequency < ReferenceSteps then
    MaximumReferenceFrequency - MinimumReferenceFrequency
  else ReferenceSteps

/-- Start clamp of MAX2870spf.py (lines 51-56), applied after the step-count
clamp: the start is lowered so that `start + steps` does not exceed
`MaximumReferenceFrequency`, then raised to `MinimumReferenceFrequency` if
below it. -/
def ReferenceFrequencyStartClamped (ReferenceFrequencyStart ReferenceSteps : ℤ) : ℤ :=
  let steps := ReferenceStepsClamped ReferenceSteps
  let start :=
    if MaximumReferenceFrequency < ReferenceFrequencyStart + steps then
      MaximumReferenceFrequency - steps
    else ReferenceFrequencyStart
  if start < MinimumReferenceFrequency then MinimumReferenceFrequency else start

/-- Whole run of MAX2870spf.py: clamp the step count and the start, then
sweep `ReferenceSteps + 1` consecutive integer reference frequencies
(the Python `range(ReferenceSteps + 1)`, empty for negative counts). -/
def spfCalculate (DesiredFrequency : ℚ) (ReferenceFrequencyStart ReferenceSteps : ℤ) : SPFState :=
  let steps := ReferenceStepsClamped ReferenceSteps
  let start := ReferenceFrequencyStartClamped ReferenceFrequencyStart ReferenceSteps
  SweepLoop (steps + 1).toNat start (spfInitialState DesiredFrequency)

/-- Frequency error printed by MAX2870spf.py for a fractional result (lines
140-146): when `NegativeFrequencyError` is set, the stored magnitude is
negated and divided by the RF divider (lines 142-144); otherwise the stored
magnitude is printed as is, without the divider scaling, because the
division at line 144 is indented inside the negative branch. -/
def spfReportedFrequencyError (s : SPFState) : ℚ :=
  if s.NegativeFrequencyError then
    -s.FrequencyError / ((2 ^ s.MatchingDivider_PowerOf2 : ℕ) : ℚ)
  else s.FrequencyError

/-- Fractional-only variant of `SweepStep`, following the specification text
of the sweep: what a step does when the integer-mode attempt is absent. -/
def FracOnlySweepStep (ReferenceFrequencyToMatch : ℚ) (s : SPFState) : SPFState × Bool :=
  let s := { s with FractionalMode := true }
  if MinimumRFFrequency ≤ s.DesiredFrequency ∧ s.DesiredFrequency ≤ MaximumRFFrequency then
    let p := vcoLoop s.DesiredFrequency 40
    let s := { s with
      DesiredFrequency := p.1,
      MatchingDivider_PowerOf2 := s.MatchingDivider_PowerOf2 + p.2 }
    let s := { s with IntegerMode := false }
    let s := RLoopSPF ReferenceFrequencyToMatch 0 1024 s
    if s.FrequencyError = 0 then (s, true) else (s, false)
  else (s, true)

/-- Fractional-only variant of `SweepLoop`. -/
def FracOnlySweepLoop : ℕ → ℤ → SPFState → SPFState
  | 0, _, s => s
  | fuel+1, ref, s =>
    let p := FracOnlySweepStep (ref : ℚ) s
    if p.2 then p.1 else FracOnlySweepLoop fuel (ref + 1) p.1

/-- Whether R is a legal integer-mode candidate with an exact integer ratio
for the sweep script. -/
def IntegerValidExact (ReferenceFrequencyToMatch DesiredFrequency : ℚ) (r : ℕ) : Prop :=
  (MinimumPFDFrequency ≤ ReferenceFrequencyToMatch / (r : ℚ) ∧
    ReferenceFrequencyToMatch / (r : ℚ) ≤ IntMaximumPFDFrequency) ∧
  (MinimumInt ≤ DesiredFrequency / (ReferenceFrequencyToMatch / (r : ℚ)) ∧
    DesiredFrequency / (ReferenceFrequencyToMatch / (r : ℚ)) ≤ MaximumInt) ∧
  (DesiredFrequency / (ReferenceFrequencyToMatch / (r : ℚ))).den = 1

instance (ReferenceFrequencyToMatch DesiredFrequency : ℚ) (r : ℕ) :
    Decidable (IntegerValidExact ReferenceFrequencyToMatch DesiredFrequency r) := by
  unfold IntegerValidExact; infer_instance

end MAX2870spf

namespace MAX2870

theorem vcoLoop_eq_mul_pow (fuel : ℕ) (x : ℚ) :
    (vcoLoop x fuel).1 = x * 2 ^ (vcoLoop x fuel).2 := by
  induction fuel generalizing x with
  | zero => simp [vcoLoop]
  | succ n ih =>
    rw [vcoLoop]
    by_cases h : x < 6000000000 / 2
    · simp only [if_pos h]
      rw [ih (2 * x)]
      ring
    · simp [if_neg h]

theorem vcoLoop_le (fuel : ℕ) (x : ℚ) (hx : x ≤ 6000000000) :
    (vcoLoop x fuel).1 ≤ 6000000000 := by
  induction fuel generalizing x with
  | zero => simpa [vcoLoop] using hx
  | succ n ih =>
    rw [vcoLoop]
    by_cases h : x < 6000000000 / 2
    · simp only [if_pos h]
      exact ih (2 * x) (by linarith)
    · simpa [if_neg h] using hx

theorem vcoLoop_ge (fuel : ℕ) (x : ℚ) (hx : 6000000000 / 2 ≤ x * 2 ^ fuel) :
    6000000000 / 2 ≤ (vcoLoop x fuel).1 := by
  induction fuel generalizing x with
  | zero => simpa [vcoLoop] using hx
  | succ n ih =>
    rw [vcoLoop]
    by_cases h : x < 6000000000 / 2
    · simp only [if_pos h]
      exact ih (2 * x) (by rw [pow_succ] at hx; linarith [hx])
    · simpa [if_neg h] using le_of_not_lt h

theorem vcoLoop_stable (f : ℕ) (x : ℚ) (g : ℕ) (hx : 6000000000 / 2 ≤ x * 2 ^ f)
    (hfg : f ≤ g) : vcoLoop x g = vcoLoop x f := by
  induction f generalizing x g with
  | zero =>
    simp only [pow_zero, mul_one] at hx
    cases g with
    | zero => rfl
    | succ n => simp only [vcoLoop, if_neg (not_lt.mpr hx)]
  | succ n ih =>
    cases g with
    | zero => omega
    | succ m =>
      rw [vcoLoop]
      conv_rhs => rw [vcoLoop]
      by_cases h : x < 6000000000 / 2
      · simp only [if_pos h]
        rw [ih (2 * x) m (by rw [pow_succ] at hx; linarith [hx]) (by omega)]
      · simp [if_neg h]

end MAX2870

/-- C5: for every target RF frequency in the RF range, normalization returns
a VCO frequency satisfying `target * 2^k = vco` with the divider exponent
`k ≥ 0`, the modeled divider is `2^k` by construction, and the VCO frequency
lies in the closed range `[RF_max/2, RF_max]`.  This is the claim amended at
its upper end: the code's loop condition `DesiredFrequency <
MaximumRFFrequency / 2` admits `vco = RF_max` exactly (reached at
`rf = RF_max`), so the half-open range `[RF_max/2, RF_max)` of the claim
must become the closed range `[RF_max/2, RF_max]`. -/
theorem C5_normalizer_range (rf : ℚ) (h1 : 2347500 ≤ rf) (h2 : rf ≤ 6000000000) :
    6000000000 / 2 ≤ (MAX2870.vcoLoop rf 40).1 ∧
    (MAX2870.vcoLoop rf 40).1 ≤ 6000000000 ∧
    (MAX2870.vcoLoop rf 40).1 = rf * 2 ^ (MAX2870.vcoLoop rf 40).2 := by
  refine ⟨?_, MAX2870.vcoLoop_le 40 rf h2, MAX2870.vcoLoop_eq_mul_pow 40 rf⟩
  have h11 : (6000000000 : ℚ) / 2 ≤ rf * 2 ^ 11 := by norm_num; linarith
  have := MAX2870.vcoLoop_stable 11 rf 40 h11 (by omega)
  rw [this]
  exact MAX2870.vcoLoop_ge 11 rf h11

/-- C5 witness: the amended range theorem applied at the lowest in-range RF
frequency of the sweep script. -/
theorem C5_witness :
    6000000000 / 2 ≤ (MAX2870.vcoLoop 2347500 40).1 ∧
    (MAX2870.vcoLoop 2347500 40).1 ≤ 6000000000 ∧
    (MAX2870.vcoLoop 2347500 40).1 = 2347500 * 2 ^ (MAX2870.vcoLoop 2347500 40).2 :=
  C5_normalizer_range 2347500 (by norm_num) (by norm_num)

/-- C5 counterexample: at the accepted boundary input `rf = RF_max =
6000000000` the normalization loop does not run, the returned VCO frequency
equals `RF_max`, and the claimed strict bound `vco < RF_max` is false. -/
theorem C5_counterexample :
    MAX2870.vcoLoop 6000000000 40 = (6000000000, 0) ∧
    (23475000 : ℚ) ≤ 6000000000 ∧ (6000000000 : ℚ) ≤ 6000000000 ∧
    ¬ (MAX2870.vcoLoop 6000000000 40).1 < 6000000000 := by
  refine ⟨?_, by norm_num, by norm_num, ?_⟩
  · rw [MAX2870.vcoLoop]; norm_num
  · rw [MAX2870.vcoLoop]; norm_num

/-- C10: the only unbounded loop of either script, the VCO doubling loop,
terminates for every in-range RF frequency: since the frequency at least
doubles each pass, eleven passes already reach `RF_max/2` from the lowest
accepted RF frequency (2347500 Hz, the sweep variant's minimum, below the
fixed-reference variant's minimum), after which the loop condition fails.
Formally, the fuel-indexed embedding is stable from fuel 11 on, and its
result satisfies the exit condition.  Every other loop of both embeddings
ranges over an a-priori fixed fuel (1024 R values, 4096 MOD values, and the
clamped step count for the sweep), so it terminates by construction. -/
theorem C10_termination (rf : ℚ) (fuel : ℕ) (h1 : 2347500 ≤ rf) (hf : 11 ≤ fuel) :
    MAX2870.vcoLoop rf fuel = MAX2870.vcoLoop rf 11 ∧
    6000000000 / 2 ≤ (MAX2870.vcoLoop rf 11).1 := by
  have h11 : (6000000000 : ℚ) / 2 ≤ rf * 2 ^ 11 := by norm_num; linarith
  exact ⟨MAX2870.vcoLoop_stable 11 rf fuel h11 hf, MAX2870.vcoLoop_ge 11 rf h11⟩

/-- C10 witness: stabilization applied at the lowest in-range RF frequency
with fuel 12. -/
theorem C10_witness :
    MAX2870.vcoLoop 2347500 12 = MAX2870.vcoLoop 2347500 11 ∧
    6000000000 / 2 ≤ (MAX2870.vcoLoop 2347500 11).1 :=
  C10_termination 2347500 12 (by norm_num) (by norm_num)

/-- C4 counterexample: the claim says an out-of-range PFD frequency only
skips that R value.  In the fixed-reference script the integer search at
reference 200 MHz and VCO 3.2 GHz terminates at R = 1 (whose PFD frequency
200 MHz exceeds the 105 MHz integer-mode ceiling) and returns no match,
although continuing from R = 2 (as the claim prescribes) finds the exact
match N = 32 at R = 2. -/
theorem C4_counterexample :
    ¬ (MAX2870pf.MinimumPFDFrequency ≤ 200000000 / ((1 : ℕ) : ℚ) ∧
        200000000 / ((1 : ℕ) : ℚ) ≤ MAX2870pf.MaximumPFDFrequency) ∧
    MAX2870pf.IntLoopPF 200000000 3200000000 1 1023 false = (none, false) ∧
    MAX2870pf.IntLoopPF 200000000 3200000000 2 1022 false = (some (2, 32), true) ∧
    MAX2870pf.IntLoopPF 200000000 3200000000 1 1023 false ≠
      MAX2870pf.IntLoopPF 200000000 3200000000 2 1022 false := by
  refine ⟨by decide, by decide, by decide, by decide⟩

/-- C4 amended: in the sweep script's integer search an out-of-range PFD
frequency at a candidate R is skipped and the search continues with the next
R value; in the fixed-reference script an out-of-range PFD frequency at any
R from 1 up terminates the integer search immediately with no match. -/
theorem C4_amended :
    (∀ (ReferenceFrequency DesiredFrequency : ℚ) (r fuel : ℕ) (ma : Bool),
      r ≠ 0 →
      ¬ (MAX2870pf.MinimumPFDFrequency ≤ ReferenceFrequency / (r : ℚ) ∧
          ReferenceFrequency / (r : ℚ) ≤ MAX2870pf.MaximumPFDFrequency) →
      MAX2870pf.IntLoopPF ReferenceFrequency DesiredFrequency r (fuel+1) ma = (none, ma)) ∧
    (∀ (ReferenceFrequencyToMatch DesiredFrequency : ℚ) (r fuel : ℕ) (ma : Bool),
      r ≠ 0 →
      ¬ (MAX2870spf.MinimumPFDFrequency ≤ ReferenceFrequencyToMatch / (r : ℚ) ∧
          ReferenceFrequencyToMatch / (r : ℚ) ≤ MAX2870spf.IntMaximumPFDFrequency) →
      MAX2870spf.IntLoopSPF ReferenceFrequencyToMatch DesiredFrequency r (fuel+1) ma =
        MAX2870spf.IntLoopSPF ReferenceFrequencyToMatch DesiredFrequency (r+1) fuel ma) := by
  constructor
  · intro ref rf r fuel ma hr hpfd
    rw [MAX2870pf.IntLoopPF]
    simp only [if_neg hr, if_neg hpfd]
  · intro ref rf r fuel ma hr hpfd
    rw [MAX2870spf.IntLoopSPF]
    simp only [if_neg hr, if_neg hpfd]

/-- C4 witness: both behaviours at reference 200 MHz, R = 1 (PFD frequency
200 MHz, above both ceilings). -/
theorem C4_witness :
    MAX2870pf.IntLoopPF 200000000 3200000000 1 1023 false = (none, false) ∧
    MAX2870spf.IntLoopSPF 200000000 3200000000 1 1023 false =
      MAX2870spf.IntLoopSPF 200000000 3200000000 2 1022 false :=
  ⟨C4_amended.1 200000000 3200000000 1 1022 false (by decide) (by decide),
   C4_amended.2 200000000 3200000000 1 1022 false (by decide) (by decide)⟩

/-- C8: the fixed-reference solver checks the reference range first and the
RF range second, before any search; each check accepts its boundary values
(both comparisons are inclusive), and for in-range inputs the result is
exactly the result of the search. -/
theorem C8_range_checks :
    (∀ ReferenceFrequency DesiredFrequency : ℚ,
      ¬ (MAX2870pf.MinimumReferenceFrequency ≤ ReferenceFrequency ∧
          ReferenceFrequency ≤ MAX2870pf.MaximumReferenceFrequency) →
      MAX2870pf.pfCalculate ReferenceFrequency DesiredFrequency =
        .ReferenceFrequencyOutOfRange) ∧
    (∀ ReferenceFrequency DesiredFrequency : ℚ,
      (MAX2870pf.MinimumReferenceFrequency ≤ ReferenceFrequency ∧
        ReferenceFrequency ≤ MAX2870pf.MaximumReferenceFrequency) →
      ¬ (MAX2870pf.MinimumRFFrequency ≤ DesiredFrequency ∧
          DesiredFrequency ≤ MAX2870pf.MaximumRFFrequency) →
      MAX2870pf.pfCalculate ReferenceFrequency DesiredFrequency = .RFFrequencyOutOfRange) ∧
    (∀ ReferenceFrequency DesiredFrequency : ℚ,
      (MAX2870pf.MinimumReferenceFrequency ≤ ReferenceFrequency ∧
        ReferenceFrequency ≤ MAX2870pf.MaximumReferenceFrequency) →
      (MAX2870pf.MinimumRFFrequency ≤ DesiredFrequency ∧
        DesiredFrequency ≤ MAX2870pf.MaximumRFFrequency) →
      MAX2870pf.pfCalculate ReferenceFrequency DesiredFrequency =
        MAX2870pf.pfRun ReferenceFrequency DesiredFrequency) := by
  refine ⟨?_, ?_, ?_⟩
  · intro ref rf h
    rw [MAX2870pf.pfCalculate, if_neg h]
  · intro ref rf h1 h2
    rw [MAX2870pf.pfCalculate, if_pos h1, if_neg h2]
  · intro ref rf h1 h2
    rw [MAX2870pf.pfCalculate, if_pos h1, if_pos h2]

/-- C8 witness: a reference 1 Hz below the minimum is rejected before any
search; a boundary request (reference exactly `REF_min`, RF exactly
`RF_min`; and reference exactly `REF_max`, RF exactly `RF_max`) is accepted
and the search runs. -/
theorem C8_witness :
    MAX2870pf.pfCalculate 9999999 5000000000 = .ReferenceFrequencyOutOfRange ∧
    MAX2870pf.pfCalculate 10000000 23474999 = .RFFrequencyOutOfRange ∧
    MAX2870pf.pfCalculate 10000000 23475000 = MAX2870pf.pfRun 10000000 23475000 ∧
    MAX2870pf.pfCalculate 200000000 6000000000 = MAX2870pf.pfRun 200000000 6000000000 :=
  ⟨C8_range_checks.1 9999999 5000000000 (by norm_num [MAX2870pf.MinimumReferenceFrequency, MAX2870pf.MaximumReferenceFrequency]),
   C8_range_checks.2.1 10000000 23474999
     (by norm_num [MAX2870pf.MinimumReferenceFrequency, MAX2870pf.MaximumReferenceFrequency])
     (by norm_num [MAX2870pf.MinimumRFFrequency, MAX2870pf.MaximumRFFrequency]),
   C8_range_checks.2.2 10000000 23475000
     (by norm_num [MAX2870pf.MinimumReferenceFrequency, MAX2870pf.MaximumReferenceFrequency])
     (by norm_num [MAX2870pf.MinimumRFFrequency, MAX2870pf.MaximumRFFrequency]),
   C8_range_checks.2.2 200000000 6000000000
     (by norm_num [MAX2870pf.MinimumReferenceFrequency, MAX2870pf.MaximumReferenceFrequency])
     (by norm_num [MAX2870pf.MinimumRFFrequency, MAX2870pf.MaximumRFFrequency])⟩

/-- C9: the sweep clamps an oversized step count to
`REF_max - REF_min`, keeps smaller counts unchanged, and adjusts the start
(first downward so that `start + steps ≤ REF_max`, then upward to
`REF_min`), so that every swept reference frequency `start + i`,
`0 ≤ i ≤ steps`, lies in `[REF_min, REF_max]`. -/
theorem C9_sweep_clamping :
    (∀ ReferenceSteps : ℤ,
      MAX2870spf.ReferenceStepsClamped ReferenceSteps ≤
        MAX2870spf.MaximumReferenceFrequency - MAX2870spf.MinimumReferenceFrequency ∧
      (ReferenceSteps ≤
          MAX2870spf.MaximumReferenceFrequency - MAX2870spf.MinimumReferenceFrequency →
        MAX2870spf.ReferenceStepsClamped ReferenceSteps = ReferenceSteps)) ∧
    (∀ (ReferenceFrequencyStart ReferenceSteps i : ℤ),
      0 ≤ i → i ≤ MAX2870spf.ReferenceStepsClamped ReferenceSteps →
      MAX2870spf.MinimumReferenceFrequency ≤
        MAX2870spf.ReferenceFrequencyStartClamped ReferenceFrequencyStart ReferenceSteps + i ∧
      MAX2870spf.ReferenceFrequencyStartClamped ReferenceFrequencyStart ReferenceSteps + i ≤
        MAX2870spf.MaximumReferenceFrequency) := by
  constructor
  · intro ss
    unfold MAX2870spf.ReferenceStepsClamped
      MAX2870spf.MaximumReferenceFrequency MAX2870spf.MinimumReferenceFrequency
    constructor
    · split <;> omega
    · intro h; split <;> omega
  · intro st ss i h0 hi
    simp only [MAX2870spf.ReferenceFrequencyStartClamped, MAX2870spf.ReferenceStepsClamped,
      MAX2870spf.MaximumReferenceFrequency, MAX2870spf.MinimumReferenceFrequency] at hi ⊢
    constructor
    · split_ifs at hi ⊢ <;> omega
    · split_ifs at hi ⊢ <;> omega

/-- C9 witness: a step count of 300000000 (above `REF_max - REF_min` =
190000000) is clamped, and for the clamped sweep starting at 5 Hz every
swept reference lies within `[REF_min, REF_max]` (instantiated at the first
and last step). -/
theorem C9_witness :
    MAX2870spf.ReferenceStepsClamped 300000000 ≤
      MAX2870spf.MaximumReferenceFrequency - MAX2870spf.MinimumReferenceFrequency ∧
    (MAX2870spf.MinimumReferenceFrequency ≤
      MAX2870spf.ReferenceFrequencyStartClamped 5 300000000 + 0 ∧
     MAX2870spf.ReferenceFrequencyStartClamped 5 300000000 + 0 ≤
      MAX2870spf.MaximumReferenceFrequency) ∧
    (MAX2870spf.MinimumReferenceFrequency ≤
      MAX2870spf.ReferenceFrequencyStartClamped 5 300000000 + 190000000 ∧
     MAX2870spf.ReferenceFrequencyStartClamped 5 300000000 + 190000000 ≤
      MAX2870spf.MaximumReferenceFrequency) :=
  ⟨(C9_sweep_clamping.1 300000000).1,
   C9_sweep_clamping.2 5 300000000 0 (by decide) (by decide),
   C9_sweep_clamping.2 5 300000000 190000000 (by decide) (by decide)⟩

namespace MAX2870pf

theorem IntLoopPF_found (ReferenceFrequency DesiredFrequency : ℚ) :
    ∀ (fuel r0 : ℕ) (ma ma' : Bool) (r : ℕ) (n : ℚ),
      r0 + fuel ≤ 1024 →
      IntLoopPF ReferenceFrequency DesiredFrequency r0 fuel ma = (some (r, n), ma') →
      1 ≤ r ∧ r ≤ 1023 ∧ n.den = 1 ∧ MinimumInt ≤ n ∧ n ≤ MaximumInt ∧
      ReferenceFrequency / (r : ℚ) * n = DesiredFrequency ∧
      ∀ r', r0 ≤ r' → r' < r →
        ¬ IntegerValidExact ReferenceFrequency DesiredFrequency r' := by
  intro fuel
  induction fuel with
  | zero =>
    intro r0 ma ma' r n _ h
    rw [IntLoopPF] at h
    simp at h
  | succ fuel ih =>
    intro r0 ma ma' r n hb h
    rw [IntLoopPF] at h
    by_cases hr0 : r0 = 0
    · rw [if_pos hr0] at h
      subst hr0
      obtain ⟨g1, g2, g3, g4, g5, g6, g7⟩ := ih 1 ma ma' r n (by omega) h
      refine ⟨g1, g2, g3, g4, g5, g6, ?_⟩
      intro r' hr1 hr2
      rcases Nat.eq_or_lt_of_le hr1 with hz | hz
      · intro hv
        obtain ⟨⟨hle, _⟩, _⟩ := hv
        rw [← hz] at hle
        norm_num [MinimumPFDFrequency] at hle
      · exact g7 r' (by omega) hr2
    · rw [if_neg hr0] at h
      simp only [] at h
      by_cases hp : MinimumPFDFrequency ≤ ReferenceFrequency / (r0 : ℚ) ∧
          ReferenceFrequency / (r0 : ℚ) ≤ MaximumPFDFrequency
      · rw [if_pos hp] at h
        by_cases hn : MinimumInt ≤ DesiredFrequency / (ReferenceFrequency / (r0 : ℚ)) ∧
            DesiredFrequency / (ReferenceFrequency / (r0 : ℚ)) ≤ MaximumInt
        · rw [if_pos hn] at h
          by_cases hd : (DesiredFrequency / (ReferenceFrequency / (r0 : ℚ))).den = 1
          · rw [if_pos hd] at h
            simp only [Prod.mk.injEq, Option.some.injEq] at h
            obtain ⟨⟨hr, hn'⟩, _⟩ := h
            subst hr; subst hn'
            have hpfd0 : ReferenceFrequency / (r0 : ℚ) ≠ 0 := by
              have : (0 : ℚ) < MinimumPFDFrequency := by norm_num [MinimumPFDFrequency]
              exact ne_of_gt (lt_of_lt_of_le this hp.1)
            refine ⟨by omega, by omega, hd, hn.1, hn.2, ?_, ?_⟩
            · rw [mul_comm]
              exact div_mul_cancel₀ DesiredFrequency hpfd0
            · intro r' h1 h2; omega
          · rw [if_neg hd] at h
            obtain ⟨g1, g2, g3, g4, g5, g6, g7⟩ := ih (r0+1) true ma' r n (by omega) h
            refine ⟨g1, g2, g3, g4, g5, g6, ?_⟩
            intro r' hr1 hr2
            rcases Nat.eq_or_lt_of_le hr1 with hz | hz
            · intro hv
              rw [← hz] at hv
              exact hd hv.2.2
            · exact g7 r' (by omega) hr2
        · rw [if_neg hn] at h
          simp at h
      · rw [if_neg hp] at h
        simp at h

end MAX2870pf

namespace MAX2870spf

theorem IntLoopSPF_found (ReferenceFrequencyToMatch DesiredFrequency : ℚ) :
    ∀ (fuel r0 : ℕ) (ma ma' : Bool) (r : ℕ) (n : ℚ),
      r0 + fuel ≤ 1024 →
      IntLoopSPF ReferenceFrequencyToMatch DesiredFrequency r0 fuel ma = (some (r, n), ma') →
      1 ≤ r ∧ r ≤ 1023 ∧ n.den = 1 ∧ MinimumInt ≤ n ∧ n ≤ MaximumInt ∧
      ReferenceFrequencyToMatch / (r : ℚ) * n = DesiredFrequency ∧
      ∀ r', r0 ≤ r' → r' < r →
        ¬ IntegerValidExact ReferenceFrequencyToMatch DesiredFrequency r' := by
  intro fuel
  induction fuel with
  | zero =>
    intro r0 ma ma' r n _ h
    rw [IntLoopSPF] at h
    simp at h
  | succ fuel ih =>
    intro r0 ma ma' r n hb h
    rw [IntLoopSPF] at h
    by_cases hr0 : r0 = 0
    · rw [if_pos hr0] at h
      subst hr0
      obtain ⟨g1, g2, g3, g4, g5, g6, g7⟩ := ih 1 ma ma' r n (by omega) h
      refine ⟨g1, g2, g3, g4, g5, g6, ?_⟩
      intro r' hr1 hr2
      rcases Nat.eq_or_lt_of_le hr1 with hz | hz
      · intro hv
        obtain ⟨⟨hle, _⟩, _⟩ := hv
        rw [← hz] at hle
        norm_num [MinimumPFDFrequency] at hle
      · exact g7 r' (by omega) hr2
    · rw [if_neg hr0] at h
      simp only [] at h
      by_cases hp : MinimumPFDFrequency ≤ ReferenceFrequencyToMatch / (r0 : ℚ) ∧
          ReferenceFrequencyToMatch / (r0 : ℚ) ≤ IntMaximumPFDFrequency
      · rw [if_pos hp] at h
        by_cases hn : MinimumInt ≤ DesiredFrequency / (ReferenceFrequencyToMatch / (r0 : ℚ)) ∧
            DesiredFrequency / (ReferenceFrequencyToMatch / (r0 : ℚ)) ≤ MaximumInt
        · rw [if_pos hn] at h
          by_cases hd : (DesiredFrequency / (ReferenceFrequencyToMatch / (r0 : ℚ))).den = 1
          · rw [if_pos hd] at h
            simp only [Prod.mk.injEq, Option.some.injEq] at h
            obtain ⟨⟨hr, hn'⟩, _⟩ := h
            subst hr; subst hn'
            have hpfd0 : ReferenceFrequencyToMatch / (r0 : ℚ) ≠ 0 := by
              have : (0 : ℚ) < MinimumPFDFrequency := by norm_num [MinimumPFDFrequency]
              exact ne_of_gt (lt_of_lt_of_le this hp.1)
            refine ⟨by omega, by omega, hd, hn.1, hn.2, ?_, ?_⟩
            · rw [mul_comm]
              exact div_mul_cancel₀ DesiredFrequency hpfd0
            · intro r' h1 h2; omega
          · rw [if_neg hd] at h
            obtain ⟨g1, g2, g3, g4, g5, g6, g7⟩ := ih (r0+1) true ma' r n (by omega) h
            refine ⟨g1, g2, g3, g4, g5, g6, ?_⟩
            intro r' hr1 hr2
            rcases Nat.eq_or_lt_of_le hr1 with hz | hz
            · intro hv
              rw [← hz] at hv
              exact hd hv.2.2
            · exact g7 r' (by omega) hr2
        · rw [if_neg hn] at h
          simp at h
      · rw [if_neg hp] at h
        obtain ⟨g1, g2, g3, g4, g5, g6, g7⟩ := ih (r0+1) ma ma' r n (by omega) h
        refine ⟨g1, g2, g3, g4, g5, g6, ?_⟩
        intro r' hr1 hr2
        rcases Nat.eq_or_lt_of_le hr1 with hz | hz
        · intro hv
          rw [← hz] at hv
          exact hp hv.1
        · exact g7 r' (by omega) hr2

end MAX2870spf

/-- C6: whenever an integer-mode search succeeds, in either script, the
returned pair is the first candidate R (in increasing order from 1) whose
PFD frequency is legal and whose ratio N is an exact in-range integer; N
lies in `[16, 65535]` and satisfies `(reference / R) * N = vco` exactly.  In
the fixed-reference script an integer success makes the whole run report the
register fields with `MOD = 2` and `FRAC = 0` (their untouched defaults). -/
theorem C6_integer_mode_first_exact :
    (∀ (ReferenceFrequency DesiredFrequency : ℚ) (ma' : Bool) (r : ℕ) (n : ℚ),
      MAX2870pf.IntLoopPF ReferenceFrequency DesiredFrequency 0 1024 false = (some (r, n), ma') →
      1 ≤ r ∧ r ≤ 1023 ∧ n.den = 1 ∧ MAX2870pf.MinimumInt ≤ n ∧ n ≤ MAX2870pf.MaximumInt ∧
      ReferenceFrequency / (r : ℚ) * n = DesiredFrequency ∧
      ∀ r' < r, ¬ MAX2870pf.IntegerValidExact ReferenceFrequency DesiredFrequency r') ∧
    (∀ (ReferenceFrequency DesiredFrequency : ℚ) (ma' : Bool) (rn : ℕ × ℚ),
      MAX2870pf.IntLoopPF ReferenceFrequency (MAX2870.vcoLoop DesiredFrequency 40).1 0 1024 false =
        (some rn, ma') →
      MAX2870pf.pfRun ReferenceFrequency DesiredFrequency =
        .IntegerResult rn.1 rn.2 2 0 (2 ^ (MAX2870.vcoLoop DesiredFrequency 40).2)
          (MAX2870.vcoLoop DesiredFrequency 40).2) ∧
    (∀ (ReferenceFrequencyToMatch DesiredFrequency : ℚ) (ma ma' : Bool) (r : ℕ) (n : ℚ),
      MAX2870spf.IntLoopSPF ReferenceFrequencyToMatch DesiredFrequency 0 1024 ma = (some (r, n), ma') →
      1 ≤ r ∧ r ≤ 1023 ∧ n.den = 1 ∧ MAX2870spf.MinimumInt ≤ n ∧ n ≤ MAX2870spf.MaximumInt ∧
      ReferenceFrequencyToMatch / (r : ℚ) * n = DesiredFrequency ∧
      ∀ r' < r, ¬ MAX2870spf.IntegerValidExact ReferenceFrequencyToMatch DesiredFrequency r') := by
  refine ⟨?_, ?_, ?_⟩
  · intro ref rf ma' r n h
    obtain ⟨g1, g2, g3, g4, g5, g6, g7⟩ :=
      MAX2870pf.IntLoopPF_found ref rf 1024 0 false ma' r n (by omega) h
    exact ⟨g1, g2, g3, g4, g5, g6, fun r' hr' => g7 r' (by omega) hr'⟩
  · intro ref rf ma' rn h
    rw [MAX2870pf.pfRun]
    simp only [h]
  · intro ref rf ma ma' r n h
    obtain ⟨g1, g2, g3, g4, g5, g6, g7⟩ :=
      MAX2870spf.IntLoopSPF_found ref rf 1024 0 ma ma' r n (by omega) h
    exact ⟨g1, g2, g3, g4, g5, g6, fun r' hr' => g7 r' (by omega) hr'⟩

/-- C6 witness: the specification's end-to-end integer example, reference
100 MHz and RF 2.4 GHz (VCO 4.8 GHz after one doubling): both scripts find
the exact match N = 48 at R = 1, and the fixed-reference run reports it with
`MOD = 2`, `FRAC = 0`, divider 2. -/
theorem C6_witness :
    (1 ≤ 1 ∧ 1 ≤ 1023 ∧ (48 : ℚ).den = 1 ∧ MAX2870pf.MinimumInt ≤ 48 ∧
      (48 : ℚ) ≤ MAX2870pf.MaximumInt ∧ 100000000 / ((1 : ℕ) : ℚ) * 48 = 4800000000 ∧
      ∀ r' < 1, ¬ MAX2870pf.IntegerValidExact 100000000 4800000000 r') ∧
    MAX2870pf.pfRun 100000000 2400000000 =
      .IntegerResult 1 48 2 0 (2 ^ (MAX2870.vcoLoop 2400000000 40).2)
        (MAX2870.vcoLoop 2400000000 40).2 ∧
    (1 ≤ 1 ∧ 1 ≤ 1023 ∧ (48 : ℚ).den = 1 ∧ MAX2870spf.MinimumInt ≤ 48 ∧
      (48 : ℚ) ≤ MAX2870spf.MaximumInt ∧ 100000000 / ((1 : ℕ) : ℚ) * 48 = 4800000000 ∧
      ∀ r' < 1, ¬ MAX2870spf.IntegerValidExact 100000000 4800000000 r') :=
  ⟨C6_integer_mode_first_exact.1 100000000 4800000000 true 1 48 (by decide),
   C6_integer_mode_first_exact.2.1 100000000 2400000000 true (1, 48) (by decide),
   C6_integer_mode_first_exact.2.2 100000000 4800000000 false true 1 48 (by decide)⟩

namespace MAX2870

theorem roundHalfUp_eq (x : ℚ) (hx : 0 ≤ x) :
    (if (1 : ℚ)/2 ≤ x - (pyint x : ℚ) then ⌈x⌉ else ⌊x⌋) = ⌊x + 1/2⌋ := by
  have h1 : ((⌊x⌋ : ℤ) : ℚ) ≤ x := Int.floor_le x
  have h2 : x < ⌊x⌋ + 1 := Int.lt_floor_add_one x
  rw [pyint, if_pos hx]
  by_cases h : (1 : ℚ)/2 ≤ x - (⌊x⌋ : ℚ)
  · rw [if_pos h]
    have hfl : ⌊x + 1/2⌋ = ⌊x⌋ + 1 := by
      rw [Int.floor_eq_iff]
      push_cast
      constructor <;> linarith
    have hce : ⌈x⌉ = ⌊x⌋ + 1 := by
      rw [Int.ceil_eq_iff]
      constructor <;> push_cast <;> linarith
    rw [hce, hfl]
  · rw [if_neg h]
    symm
    rw [Int.floor_eq_iff]
    constructor
    · linarith [Int.floor_le x]
    · linarith [not_le.mp h]

theorem FracToMatchOf_eq_floor (FrequencyRemainder ModFrequencyStep : ℚ) (ModToMatch : ℕ)
    (hrem : 0 ≤ FrequencyRemainder) (hstep : 0 < ModFrequencyStep) :
    FracToMatchOf FrequencyRemainder ModFrequencyStep ModToMatch =
      if (ModToMatch : ℤ) ≤ ⌊FrequencyRemainder / ModFrequencyStep + 1/2⌋ then
        (ModToMatch : ℤ) - 1
      else ⌊FrequencyRemainder / ModFrequencyStep + 1/2⌋ := by
  have hx : 0 ≤ FrequencyRemainder / ModFrequencyStep := div_nonneg hrem (le_of_lt hstep)
  rw [FracToMatchOf]
  rw [roundHalfUp_eq _ hx]

theorem FracToMatchOf_bounds (FrequencyRemainder ModFrequencyStep : ℚ) (ModToMatch : ℕ)
    (hrem : 0 ≤ FrequencyRemainder) (hstep : 0 < ModFrequencyStep) (hm : 2 ≤ ModToMatch) :
    0 ≤ FracToMatchOf FrequencyRemainder ModFrequencyStep ModToMatch ∧
    FracToMatchOf FrequencyRemainder ModFrequencyStep ModToMatch < (ModToMatch : ℤ) := by
  have hx : 0 ≤ FrequencyRemainder / ModFrequencyStep := div_nonneg hrem (le_of_lt hstep)
  have hfl : 0 ≤ ⌊FrequencyRemainder / ModFrequencyStep + 1/2⌋ :=
    Int.floor_nonneg.mpr (by linarith)
  rw [FracToMatchOf_eq_floor _ _ _ hrem hstep]
  by_cases h : (ModToMatch : ℤ) ≤ ⌊FrequencyRemainder / ModFrequencyStep + 1/2⌋
  · rw [if_pos h]
    omega
  · rw [if_neg h]
    omega

end MAX2870

namespace MAX2870pf

theorem ModLoopPF_bounds (pfd FrequencyRemainder : ℚ) (RtoMatch : ℕ) (IntTemp : ℤ)
    (hrem : 0 ≤ FrequencyRemainder) (hpfd : 0 < pfd) :
    ∀ (fuel m0 : ℕ) (s : PFState), m0 + fuel ≤ 4096 →
      0 ≤ s.MatchingFrac ∧ s.MatchingFrac < (s.MatchingMod : ℤ) ∧
        2 ≤ s.MatchingMod ∧ s.MatchingMod ≤ 4095 →
      0 ≤ (ModLoopPF pfd FrequencyRemainder RtoMatch IntTemp m0 fuel s).MatchingFrac ∧
      (ModLoopPF pfd FrequencyRemainder RtoMatch IntTemp m0 fuel s).MatchingFrac <
        ((ModLoopPF pfd FrequencyRemainder RtoMatch IntTemp m0 fuel s).MatchingMod : ℤ) ∧
      2 ≤ (ModLoopPF pfd FrequencyRemainder RtoMatch IntTemp m0 fuel s).MatchingMod ∧
      (ModLoopPF pfd FrequencyRemainder RtoMatch IntTemp m0 fuel s).MatchingMod ≤ 4095 := by
  intro fuel
  induction fuel with
  | zero =>
    intro m0 s _ hs
    rw [ModLoopPF]
    exact hs
  | succ fuel ih =>
    intro m0 s hb hs
    rw [ModLoopPF]
    by_cases hm : m0 < 2
    · rw [if_pos hm]
      exact ih (m0+1) s (by omega) hs
    · rw [if_neg hm]
      simp only []
      have hstep : 0 < pfd / (m0 : ℚ) := by
        apply div_pos hpfd
        exact_mod_cast Nat.pos_of_ne_zero (by omega)
      have hfb := MAX2870.FracToMatchOf_bounds FrequencyRemainder (pfd / (m0 : ℚ)) m0
        hrem hstep (by omega)
      have hm2 : 2 ≤ m0 := by omega
      have hm3 : m0 ≤ 4095 := by omega
      by_cases hc : (if CandidateError pfd FrequencyRemainder m0 < 0 then
          -CandidateError pfd FrequencyRemainder m0 else
          CandidateError pfd FrequencyRemainder m0) < s.FrequencyError
      · rw [if_pos hc]
        by_cases hz :
            (PFState.mk (if CandidateError pfd FrequencyRemainder m0 < 0 then
                -CandidateError pfd FrequencyRemainder m0 else
                CandidateError pfd FrequencyRemainder m0)
              (decide (CandidateError pfd FrequencyRemainder m0 < 0)) RtoMatch IntTemp m0
              (MAX2870.FracToMatchOf FrequencyRemainder (pfd / (m0 : ℚ)) m0)
              s.MatchAttempted).FrequencyError = 0
        · rw [if_pos hz]
          exact ⟨hfb.1, hfb.2, hm2, hm3⟩
        · rw [if_neg hz]
          exact ih (m0+1) _ (by omega) ⟨hfb.1, hfb.2, hm2, hm3⟩
      · rw [if_neg hc]
        by_cases hz :
            ({ s with
                FrequencyError := if CandidateError pfd FrequencyRemainder m0 < 0 then
                  -CandidateError pfd FrequencyRemainder m0 else
                  CandidateError pfd FrequencyRemainder m0,
                NegativeFrequencyError :=
                  decide (CandidateError pfd FrequencyRemainder m0 < 0) } : PFState).FrequencyError = 0
        · rw [if_pos hz]
          exact hs
        · rw [if_neg hz]
          exact ih (m0+1) _ (by omega) hs

theorem RLoopPF_bounds (ReferenceFrequency DesiredFrequency : ℚ) :
    ∀ (fuel r0 : ℕ) (s : PFState),
      0 ≤ s.MatchingFrac ∧ s.MatchingFrac < (s.MatchingMod : ℤ) ∧
        2 ≤ s.MatchingMod ∧ s.MatchingMod ≤ 4095 →
      0 ≤ (RLoopPF ReferenceFrequency DesiredFrequency r0 fuel s).MatchingFrac ∧
      (RLoopPF ReferenceFrequency DesiredFrequency r0 fuel s).MatchingFrac <
        ((RLoopPF ReferenceFrequency DesiredFrequency r0 fuel s).MatchingMod : ℤ) ∧
      2 ≤ (RLoopPF ReferenceFrequency DesiredFrequency r0 fuel s).MatchingMod ∧
      (RLoopPF ReferenceFrequency DesiredFrequency r0 fuel s).MatchingMod ≤ 4095 := by
  intro fuel
  induction fuel with
  | zero =>
    intro r0 s hs
    rw [RLoopPF]
    exact hs
  | succ fuel ih =>
    intro r0 s hs
    rw [RLoopPF]
    by_cases hr0 : r0 = 0
    · rw [if_pos hr0]
      exact ih (r0+1) s hs
    · rw [if_neg hr0]
      simp only []
      by_cases hp : MinimumPFDFrequency ≤ ReferenceFrequency / (r0 : ℚ) ∧
          ReferenceFrequency / (r0 : ℚ) ≤ FracMaximumPFDFrequency
      · rw [if_pos hp]
        have hpfd : 0 < ReferenceFrequency / (r0 : ℚ) := by
          have : (0 : ℚ) < MinimumPFDFrequency := by norm_num [MinimumPFDFrequency]
          linarith [hp.1]
        by_cases hn : FracMinimumInt ≤ ⌊DesiredFrequency / (ReferenceFrequency / (r0 : ℚ))⌋ ∧
            ⌊DesiredFrequency / (ReferenceFrequency / (r0 : ℚ))⌋ ≤ FracMaximumInt
        · rw [if_pos hn]
          have hrem : 0 ≤ DesiredFrequency -
              ((⌊DesiredFrequency / (ReferenceFrequency / (r0 : ℚ))⌋ : ℤ) : ℚ) *
                (ReferenceFrequency / (r0 : ℚ)) := by
            have hfl : ((⌊DesiredFrequency / (ReferenceFrequency / (r0 : ℚ))⌋ : ℤ) : ℚ) ≤
                DesiredFrequency / (ReferenceFrequency / (r0 : ℚ)) :=
              Int.floor_le _
            have := mul_le_mul_of_nonneg_right hfl (le_of_lt hpfd)
            rw [div_mul_cancel₀ DesiredFrequency (ne_of_gt hpfd)] at this
            linarith
          have hmod := ModLoopPF_bounds (ReferenceFrequency / (r0 : ℚ)) _ r0
            ⌊DesiredFrequency / (ReferenceFrequency / (r0 : ℚ))⌋ hrem hpfd 4096 0
            { s with MatchAttempted := true } (by omega) ⟨hs.1, hs.2.1, hs.2.2.1, hs.2.2.2⟩
          by_cases hz : (ModLoopPF (ReferenceFrequency / (r0 : ℚ))
              (DesiredFrequency -
                ((⌊DesiredFrequency / (ReferenceFrequency / (r0 : ℚ))⌋ : ℤ) : ℚ) *
                  (ReferenceFrequency / (r0 : ℚ))) r0
              ⌊DesiredFrequency / (ReferenceFrequency / (r0 : ℚ))⌋ 0 4096
              { s with MatchAttempted := true }).FrequencyError = 0
          · rw [if_pos hz]
            exact hmod
          · rw [if_neg hz]
            exact ih (r0+1) _ hmod
        · rw [if_neg hn]
          by_cases hgt : FracMaximumInt < ⌊DesiredFrequency / (ReferenceFrequency / (r0 : ℚ))⌋
          · rw [if_pos hgt]
            exact hs
          · rw [if_neg hgt]
            exact ih (r0+1) s hs
      · rw [if_neg hp]
        exact hs

end MAX2870pf

namespace MAX2870spf

theorem ModLoopSPF_bounds (ReferenceFrequencyToMatch pfd FrequencyRemainder : ℚ)
    (RtoMatch : ℕ) (IntTemp : ℤ) (hrem : 0 ≤ FrequencyRemainder) (hpfd : 0 < pfd) :
    ∀ (fuel m0 : ℕ) (s : SPFState), m0 + fuel ≤ 4096 →
      0 ≤ s.MatchingFrac ∧ s.MatchingFrac < (s.MatchingMod : ℤ) ∧
        2 ≤ s.MatchingMod ∧ s.MatchingMod ≤ 4095 →
      0 ≤ (ModLoopSPF ReferenceFrequencyToMatch pfd FrequencyRemainder RtoMatch IntTemp m0 fuel s).MatchingFrac ∧
      (ModLoopSPF ReferenceFrequencyToMatch pfd FrequencyRemainder RtoMatch IntTemp m0 fuel s).MatchingFrac <
        ((ModLoopSPF ReferenceFrequencyToMatch pfd FrequencyRemainder RtoMatch IntTemp m0 fuel s).MatchingMod : ℤ) ∧
      2 ≤ (ModLoopSPF ReferenceFrequencyToMatch pfd FrequencyRemainder RtoMatch IntTemp m0 fuel s).MatchingMod ∧
      (ModLoopSPF ReferenceFrequencyToMatch pfd FrequencyRemainder RtoMatch IntTemp m0 fuel s).MatchingMod ≤ 4095 := by
  intro fuel
  induction fuel with
  | zero =>
    intro m0 s _ hs
    rw [ModLoopSPF]
    exact hs
  | succ fuel ih =>
    intro m0 s hb hs
    rw [ModLoopSPF]
    by_cases hm : m0 < 2
    · rw [if_pos hm]
      exact ih (m0+1) s (by omega) hs
    · rw [if_neg hm]
      simp only []
      have hstep : 0 < pfd / (m0 : ℚ) := by
        apply div_pos hpfd
        exact_mod_cast Nat.pos_of_ne_zero (by omega)
      have hfb := MAX2870.FracToMatchOf_bounds FrequencyRemainder (pfd / (m0 : ℚ)) m0
        hrem hstep (by omega)
      have hm2 : 2 ≤ m0 := by omega
      have hm3 : m0 ≤ 4095 := by omega
      by_cases hc : (if CandidateError pfd FrequencyRemainder m0 < 0 then
          -CandidateError pfd FrequencyRemainder m0 else
          CandidateError pfd FrequencyRemainder m0) < s.FrequencyError
      · rw [if_pos hc]
        by_cases hz :
            ({ s with
                FinalReferenceFrequency := ReferenceFrequencyToMatch,
                FrequencyError := if CandidateError pfd FrequencyRemainder m0 < 0 then
                  -CandidateError pfd FrequencyRemainder m0 else
                  CandidateError pfd FrequencyRemainder m0,
                NegativeFrequencyError := decide (CandidateError pfd FrequencyRemainder m0 < 0),
                MatchingR := RtoMatch, MatchingInt := (IntTemp : ℚ),
                MatchingMod := m0,
                MatchingFrac := MAX2870.FracToMatchOf FrequencyRemainder (pfd / (m0 : ℚ)) m0 } :
              SPFState).FrequencyError = 0
        · rw [if_pos hz]
          exact ⟨hfb.1, hfb.2, hm2, hm3⟩
        · rw [if_neg hz]
          exact ih (m0+1) _ (by omega) ⟨hfb.1, hfb.2, hm2, hm3⟩
      · rw [if_neg hc]
        by_cases hz :
            ({ s with
                NegativeFrequencyError := decide (CandidateError pfd FrequencyRemainder m0 < 0) } :
              SPFState).FrequencyError = 0
        · rw [if_pos hz]
          exact hs
        · rw [if_neg hz]
          exact ih (m0+1) _ (by omega) hs

theorem RLoopSPF_bounds (ReferenceFrequencyToMatch : ℚ) :
    ∀ (fuel r0 : ℕ) (s : SPFState),
      0 ≤ s.MatchingFrac ∧ s.MatchingFrac < (s.MatchingMod : ℤ) ∧
        2 ≤ s.MatchingMod ∧ s.MatchingMod ≤ 4095 →
      0 ≤ (RLoopSPF ReferenceFrequencyToMatch r0 fuel s).MatchingFrac ∧
      (RLoopSPF ReferenceFrequencyToMatch r0 fuel s).MatchingFrac <
        ((RLoopSPF ReferenceFrequencyToMatch r0 fuel s).MatchingMod : ℤ) ∧
      2 ≤ (RLoopSPF ReferenceFrequencyToMatch r0 fuel s).MatchingMod ∧
      (RLoopSPF ReferenceFrequencyToMatch r0 fuel s).MatchingMod ≤ 4095 := by
  intro fuel
  induction fuel with
  | zero =>
    intro r0 s hs
    rw [RLoopSPF]
    exact hs
  | succ fuel ih =>
    intro r0 s hs
    rw [RLoopSPF]
    by_cases hr0 : r0 = 0
    · rw [if_pos hr0]
      exact ih (r0+1) s hs
    · rw [if_neg hr0]
      simp only []
      by_cases hp : MinimumPFDFrequency ≤ ReferenceFrequencyToMatch / (r0 : ℚ) ∧
          ReferenceFrequencyToMatch / (r0 : ℚ) ≤ FracMaximumPFDFrequency
      · rw [if_pos hp]
        have hpfd : 0 < ReferenceFrequencyToMatch / (r0 : ℚ) := by
          have : (0 : ℚ) < MinimumPFDFrequency := by norm_num [MinimumPFDFrequency]
          linarith [hp.1]
        by_cases hn : FracMinimumInt ≤ ⌊s.DesiredFrequency / (ReferenceFrequencyToMatch / (r0 : ℚ))⌋ ∧
            ⌊s.DesiredFrequency / (ReferenceFrequencyToMatch / (r0 : ℚ))⌋ ≤ FracMaximumInt
        · rw [if_pos hn]
          have hrem : 0 ≤ s.DesiredFrequency -
              ((⌊s.DesiredFrequency / (ReferenceFrequencyToMatch / (r0 : ℚ))⌋ : ℤ) : ℚ) *
                (ReferenceFrequencyToMatch / (r0 : ℚ)) := by
            have hfl : ((⌊s.DesiredFrequency / (ReferenceFrequencyToMatch / (r0 : ℚ))⌋ : ℤ) : ℚ) ≤
                s.DesiredFrequency / (ReferenceFrequencyToMatch / (r0 : ℚ)) :=
              Int.floor_le _
            have := mul_le_mul_of_nonneg_right hfl (le_of_lt hpfd)
            rw [div_mul_cancel₀ s.DesiredFrequency (ne_of_gt hpfd)] at this
            linarith
          have hmod := ModLoopSPF_bounds ReferenceFrequencyToMatch
            (ReferenceFrequencyToMatch / (r0 : ℚ)) _ r0
            ⌊s.DesiredFrequency / (ReferenceFrequencyToMatch / (r0 : ℚ))⌋ hrem hpfd 4096 0
            { s with MatchAttempted := true } (by omega) ⟨hs.1, hs.2.1, hs.2.2.1, hs.2.2.2⟩
          by_cases hz : (ModLoopSPF ReferenceFrequencyToMatch
              (ReferenceFrequencyToMatch / (r0 : ℚ))
              (s.DesiredFrequency -
                ((⌊s.DesiredFrequency / (ReferenceFrequencyToMatch / (r0 : ℚ))⌋ : ℤ) : ℚ) *
                  (ReferenceFrequencyToMatch / (r0 : ℚ))) r0
              ⌊s.DesiredFrequency / (ReferenceFrequencyToMatch / (r0 : ℚ))⌋ 0 4096
              { s with MatchAttempted := true }).FrequencyError = 0
          · rw [if_pos hz]
            exact hmod
          · rw [if_neg hz]
            exact ih (r0+1) _ hmod
        · rw [if_neg hn]
          by_cases hgt : FracMaximumInt < ⌊s.DesiredFrequency / (ReferenceFrequencyToMatch / (r0 : ℚ))⌋
          · rw [if_pos hgt]
            exact hs
          · rw [if_neg hgt]
            exact ih (r0+1) s hs
      · rw [if_neg hp]
        exact ih (r0+1) s hs

theorem SweepStep_bounds (ReferenceFrequencyToMatch : ℚ) (s : SPFState)
    (hs : 0 ≤ s.MatchingFrac ∧ s.MatchingFrac < (s.MatchingMod : ℤ) ∧
      2 ≤ s.MatchingMod ∧ s.MatchingMod ≤ 4095) :
    0 ≤ (SweepStep ReferenceFrequencyToMatch s).1.MatchingFrac ∧
    (SweepStep ReferenceFrequencyToMatch s).1.MatchingFrac <
      ((SweepStep ReferenceFrequencyToMatch s).1.MatchingMod : ℤ) ∧
    2 ≤ (SweepStep ReferenceFrequencyToMatch s).1.MatchingMod ∧
    (SweepStep ReferenceFrequencyToMatch s).1.MatchingMod ≤ 4095 := by
  rw [SweepStep]
  simp only []
  by_cases hrf : MinimumRFFrequency ≤ s.DesiredFrequency ∧ s.DesiredFrequency ≤ MaximumRFFrequency
  · rw [if_pos hrf]
    by_cases hint : s.IntegerMode = true
    · rw [if_pos hint]
      rcases hIL : IntLoopSPF ReferenceFrequencyToMatch
          (MAX2870.vcoLoop s.DesiredFrequency 40).1 0 1024 s.MatchAttempted with ⟨o, ma2⟩
      rcases o with _ | rn
      · simp only []
        split
        · exact hs
        · split
          · exact RLoopSPF_bounds _ 1024 0 _ hs
          · exact RLoopSPF_bounds _ 1024 0 _ hs
      · simp only []
        split
        · exact ⟨(by norm_num : (0:ℤ) ≤ 0), (by norm_num : (0:ℤ) < ((2:ℕ) : ℤ)),
            le_refl 2, (by norm_num : (2:ℕ) ≤ 4095)⟩
        · split
          · exact RLoopSPF_bounds _ 1024 0 _ ⟨(by norm_num : (0:ℤ) ≤ 0),
              (by norm_num : (0:ℤ) < ((2:ℕ) : ℤ)), le_refl 2, (by norm_num : (2:ℕ) ≤ 4095)⟩
          · exact RLoopSPF_bounds _ 1024 0 _ ⟨(by norm_num : (0:ℤ) ≤ 0),
              (by norm_num : (0:ℤ) < ((2:ℕ) : ℤ)), le_refl 2, (by norm_num : (2:ℕ) ≤ 4095)⟩
    · rw [if_neg hint]
      split
      · exact hs
      · split
        · exact RLoopSPF_bounds _ 1024 0 _ hs
        · exact RLoopSPF_bounds _ 1024 0 _ hs
  · rw [if_neg hrf]
    exact hs

theorem SweepLoop_bounds :
    ∀ (fuel : ℕ) (ref : ℤ) (s : SPFState),
      0 ≤ s.MatchingFrac ∧ s.MatchingFrac < (s.MatchingMod : ℤ) ∧
        2 ≤ s.MatchingMod ∧ s.MatchingMod ≤ 4095 →
      0 ≤ (SweepLoop fuel ref s).MatchingFrac ∧
      (SweepLoop fuel ref s).MatchingFrac < ((SweepLoop fuel ref s).MatchingMod : ℤ) ∧
      2 ≤ (SweepLoop fuel ref s).MatchingMod ∧ (SweepLoop fuel ref s).MatchingMod ≤ 4095 := by
  intro fuel
  induction fuel with
  | zero =>
    intro ref s hs
    rw [SweepLoop]
    exact hs
  | succ fuel ih =>
    intro ref s hs
    rw [SweepLoop]
    by_cases hb : (SweepStep (ref : ℚ) s).2 = true
    · rw [if_pos hb]
      exact SweepStep_bounds (ref : ℚ) s hs
    · rw [if_neg hb]
      exact ih (ref + 1) _ (SweepStep_bounds (ref : ℚ) s hs)

end MAX2870spf

namespace MAX2870pf

/-- Provenance of the error registers through the MOD loop of MAX2870pf.py:
after the loop, `FrequencyError` and `NegativeFrequencyError` are either
untouched or hold the absolute value and sign flag of the candidate error of
some examined modulus (in the code, the most recently examined one), because
lines 94-99 overwrite them at every examined modulus. -/
theorem ModLoopPF_error_src (pfd FrequencyRemainder : ℚ) (RtoMatch : ℕ) (IntTemp : ℤ) :
    ∀ (fuel m0 : ℕ) (s : PFState),
      ((ModLoopPF pfd FrequencyRemainder RtoMatch IntTemp m0 fuel s).FrequencyError =
          s.FrequencyError ∧
        (ModLoopPF pfd FrequencyRemainder RtoMatch IntTemp m0 fuel s).NegativeFrequencyError =
          s.NegativeFrequencyError) ∨
      ∃ m : ℕ, 2 ≤ m ∧ m0 ≤ m ∧ m < m0 + fuel ∧
        (ModLoopPF pfd FrequencyRemainder RtoMatch IntTemp m0 fuel s).FrequencyError =
          (if CandidateError pfd FrequencyRemainder m < 0 then
            -CandidateError pfd FrequencyRemainder m
          else CandidateError pfd FrequencyRemainder m) ∧
        (ModLoopPF pfd FrequencyRemainder RtoMatch IntTemp m0 fuel s).NegativeFrequencyError =
          decide (CandidateError pfd FrequencyRemainder m < 0) := by
  intro fuel
  induction fuel with
  | zero =>
    intro m0 s
    rw [ModLoopPF]
    exact Or.inl ⟨rfl, rfl⟩
  | succ fuel ih =>
    intro m0 s
    rw [ModLoopPF]
    by_cases hm : m0 < 2
    · rw [if_pos hm]
      rcases ih (m0+1) s with hkeep | ⟨m, hm2, hml, hmu, he, hne⟩
      · exact Or.inl hkeep
      · exact Or.inr ⟨m, hm2, by omega, by omega, he, hne⟩
    · rw [if_neg hm]
      simp only []
      by_cases hc : (if CandidateError pfd FrequencyRemainder m0 < 0 then
          -CandidateError pfd FrequencyRemainder m0 else
          CandidateError pfd FrequencyRemainder m0) < s.FrequencyError
      · rw [if_pos hc]
        by_cases hz :
            (PFState.mk (if CandidateError pfd FrequencyRemainder m0 < 0 then
                -CandidateError pfd FrequencyRemainder m0 else
                CandidateError pfd FrequencyRemainder m0)
              (decide (CandidateError pfd FrequencyRemainder m0 < 0)) RtoMatch IntTemp m0
              (MAX2870.FracToMatchOf FrequencyRemainder (pfd / (m0 : ℚ)) m0)
              s.MatchAttempted).FrequencyError = 0
        · rw [if_pos hz]
          exact Or.inr ⟨m0, by omega, by omega, by omega, rfl, rfl⟩
        · rw [if_neg hz]
          rcases ih (m0+1)
              (PFState.mk (if CandidateError pfd FrequencyRemainder m0 < 0 then
                  -CandidateError pfd FrequencyRemainder m0 else
                  CandidateError pfd FrequencyRemainder m0)
                (decide (CandidateError pfd FrequencyRemainder m0 < 0)) RtoMatch IntTemp m0
                (MAX2870.FracToMatchOf FrequencyRemainder (pfd / (m0 : ℚ)) m0)
                s.MatchAttempted) with hkeep | ⟨m, hm2, hml, hmu, he, hne⟩
          · exact Or.inr ⟨m0, by omega, by omega, by omega, hkeep.1, hkeep.2⟩
          · exact Or.inr ⟨m, hm2, by omega, by omega, he, hne⟩
      · rw [if_neg hc]
        by_cases hz :
            ({ s with
                FrequencyError := if CandidateError pfd FrequencyRemainder m0 < 0 then
                  -CandidateError pfd FrequencyRemainder m0 else
                  CandidateError pfd FrequencyRemainder m0,
                NegativeFrequencyError :=
                  decide (CandidateError pfd FrequencyRemainder m0 < 0) } : PFState).FrequencyError = 0
        · rw [if_pos hz]
          exact Or.inr ⟨m0, by omega, by omega, by omega, rfl, rfl⟩
        · rw [if_neg hz]
          rcases ih (m0+1)
              ({ s with
                FrequencyError := if CandidateError pfd FrequencyRemainder m0 < 0 then
                  -CandidateError pfd FrequencyRemainder m0 else
                  CandidateError pfd FrequencyRemainder m0,
                NegativeFrequencyError :=
                  decide (CandidateError pfd FrequencyRemainder m0 < 0) } : PFState)
              with hkeep | ⟨m, hm2, hml, hmu, he, hne⟩
          · exact Or.inr ⟨m0, by omega, by omega, by omega, hkeep.1, hkeep.2⟩
          · exact Or.inr ⟨m, hm2, by omega, by omega, he, hne⟩

/-- Provenance of the error registers through the whole fractional search of
MAX2870pf.py: after the R loop, `FrequencyError` and
`NegativeFrequencyError` are either untouched or hold the absolute value and
sign flag of the candidate error of some examined feasible (R, MOD) pair. -/
theorem RLoopPF_error_src (ReferenceFrequency DesiredFrequency : ℚ) :
    ∀ (fuel r0 : ℕ) (s : PFState),
      ((RLoopPF ReferenceFrequency DesiredFrequency r0 fuel s).FrequencyError =
          s.FrequencyError ∧
        (RLoopPF ReferenceFrequency DesiredFrequency r0 fuel s).NegativeFrequencyError =
          s.NegativeFrequencyError) ∨
      ∃ r m : ℕ, r ≠ 0 ∧ 2 ≤ m ∧ m ≤ 4095 ∧
        (MinimumPFDFrequency ≤ ReferenceFrequency / (r : ℚ) ∧
          ReferenceFrequency / (r : ℚ) ≤ FracMaximumPFDFrequency) ∧
        (FracMinimumInt ≤ ⌊DesiredFrequency / (ReferenceFrequency / (r : ℚ))⌋ ∧
          ⌊DesiredFrequency / (ReferenceFrequency / (r : ℚ))⌋ ≤ FracMaximumInt) ∧
        (RLoopPF ReferenceFrequency DesiredFrequency r0 fuel s).FrequencyError =
          (if CandidateError (ReferenceFrequency / (r : ℚ))
              (DesiredFrequency - ((⌊DesiredFrequency / (ReferenceFrequency / (r : ℚ))⌋ : ℤ) : ℚ) *
                (ReferenceFrequency / (r : ℚ))) m < 0 then
            -CandidateError (ReferenceFrequency / (r : ℚ))
              (DesiredFrequency - ((⌊DesiredFrequency / (ReferenceFrequency / (r : ℚ))⌋ : ℤ) : ℚ) *
                (ReferenceFrequency / (r : ℚ))) m
          else CandidateError (ReferenceFrequency / (r : ℚ))
              (DesiredFrequency - ((⌊DesiredFrequency / (ReferenceFrequency / (r : ℚ))⌋ : ℤ) : ℚ) *
                (ReferenceFrequency / (r : ℚ))) m) ∧
        (RLoopPF ReferenceFrequency DesiredFrequency r0 fuel s).NegativeFrequencyError =
          decide (CandidateError (ReferenceFrequency / (r : ℚ))
              (DesiredFrequency - ((⌊DesiredFrequency / (ReferenceFrequency / (r : ℚ))⌋ : ℤ) : ℚ) *
                (ReferenceFrequency / (r : ℚ))) m < 0) := by
  intro fuel
  induction fuel with
  | zero =>
    intro r0 s
    rw [RLoopPF]
    exact Or.inl ⟨rfl, rfl⟩
  | succ fuel ih =>
    intro r0 s
    rw [RLoopPF]
    by_cases hr0 : r0 = 0
    · rw [if_pos hr0]
      exact ih (r0+1) s
    · rw [if_neg hr0]
      simp only []
      by_cases hp : MinimumPFDFrequency ≤ ReferenceFrequency / (r0 : ℚ) ∧
          ReferenceFrequency / (r0 : ℚ) ≤ FracMaximumPFDFrequency
      · rw [if_pos hp]
        by_cases hn : FracMinimumInt ≤ ⌊DesiredFrequency / (ReferenceFrequency / (r0 : ℚ))⌋ ∧
            ⌊DesiredFrequency / (ReferenceFrequency / (r0 : ℚ))⌋ ≤ FracMaximumInt
        · rw [if_pos hn]
          have hsrc := ModLoopPF_error_src (ReferenceFrequency / (r0 : ℚ))
            (DesiredFrequency - ((⌊DesiredFrequency / (ReferenceFrequency / (r0 : ℚ))⌋ : ℤ) : ℚ) *
              (ReferenceFrequency / (r0 : ℚ))) r0
            ⌊DesiredFrequency / (ReferenceFrequency / (r0 : ℚ))⌋ 4096 0
            { s with MatchAttempted := true }
          by_cases hz : (ModLoopPF (ReferenceFrequency / (r0 : ℚ))
              (DesiredFrequency -
                ((⌊DesiredFrequency / (ReferenceFrequency / (r0 : ℚ))⌋ : ℤ) : ℚ) *
                  (ReferenceFrequency / (r0 : ℚ))) r0
              ⌊DesiredFrequency / (ReferenceFrequency / (r0 : ℚ))⌋ 0 4096
              { s with MatchAttempted := true }).FrequencyError = 0
          · rw [if_pos hz]
            rcases hsrc with hkeep | ⟨m, hm2, hml, hmu, he, hne⟩
            · exact Or.inl ⟨hkeep.1, hkeep.2⟩
            · exact Or.inr ⟨r0, m, hr0, hm2, by omega, hp, hn, he, hne⟩
          · rw [if_neg hz]
            rcases ih (r0+1) (ModLoopPF (ReferenceFrequency / (r0 : ℚ))
                (DesiredFrequency -
                  ((⌊DesiredFrequency / (ReferenceFrequency / (r0 : ℚ))⌋ : ℤ) : ℚ) *
                    (ReferenceFrequency / (r0 : ℚ))) r0
                ⌊DesiredFrequency / (ReferenceFrequency / (r0 : ℚ))⌋ 0 4096
                { s with MatchAttempted := true })
                with hkeep2 | ⟨r, m, hr, hm2, hm4, hfp, hfn, he, hne⟩
            · rcases hsrc with hkeep | ⟨m, hm2, hml, hmu, he, hne⟩
              · exact Or.inl ⟨hkeep2.1.trans hkeep.1, hkeep2.2.trans hkeep.2⟩
              · exact Or.inr ⟨r0, m, hr0, hm2, by omega, hp, hn,
                  hkeep2.1.trans he, hkeep2.2.trans hne⟩
            · exact Or.inr ⟨r, m, hr, hm2, hm4, hfp, hfn, he, hne⟩
        · rw [if_neg hn]
          by_cases hgt : FracMaximumInt < ⌊DesiredFrequency / (ReferenceFrequency / (r0 : ℚ))⌋
          · rw [if_pos hgt]
            exact Or.inl ⟨rfl, rfl⟩
          · rw [if_neg hgt]
            exact ih (r0+1) s
      · rw [if_neg hp]
        exact Or.inl ⟨rfl, rfl⟩

set_option maxRecDepth 1000000 in
set_option maxHeartbeats 40000000 in
/-- Full evaluation of MAX2870pf.py at reference 50500000 Hz and RF
5897342159 Hz: the integer search exhausts every legal R without an exact
match, the fractional R loop breaks at R = 1 (whose PFD frequency 50.5 MHz
exceeds the 50 MHz fractional ceiling) before examining any candidate, and
the script reports a fractional result carrying the untouched initial state. -/
theorem pfCalculate_eval :
    pfCalculate 50500000 5897342159 = .FractionalResult (initPFState 50500000 true) 1 0 := by
  decide

/-- C1: the claim that the fixed-reference fractional search keeps a
best-so-far candidate is false in the code.  `OldFrequencyError` is read
from `FrequencyError` (line 85), which the previous candidate overwrote
(line 94), so each candidate is compared with the previous candidate, not
with the best so far.  Concretely, with PFD frequency 10, remainder 3 and a
state whose stored best error is 1/10: the modulus-2 candidate has error -2
(so 2 does not beat 1/10 and only the error registers change), then the
modulus-3 candidate has error -1/3, and because 1/3 < 2 (the previous
candidate), the loop replaces the stored fields with the modulus-3
candidate although 1/3 is worse than the stored 1/10. -/
theorem C1_best_error_overwritten :
    CandidateError 10 3 2 = -2 ∧
    CandidateError 10 3 3 = -(1/3) ∧
    ModLoopPF 10 3 5 100 2 2
      { FrequencyError := 1/10, NegativeFrequencyError := false, MatchingR := 5,
        MatchingInt := 100, MatchingMod := 7, MatchingFrac := 3, MatchAttempted := true } =
      { FrequencyError := 1/3, NegativeFrequencyError := true, MatchingR := 5,
        MatchingInt := 100, MatchingMod := 3, MatchingFrac := 1, MatchAttempted := true } ∧
    ¬ ((1 : ℚ)/3 < 1/10) :=
  ⟨by decide, by decide, by decide, by decide⟩

end MAX2870pf

/-- C7: FRAC is computed by round half up and clamped below MOD.  For every
nonnegative remainder and positive step, the computed FRAC equals
`floor(remainder/step + 1/2)` (so a fractional part of exactly one half
rounds upward) clamped to `MOD - 1` when rounding reaches MOD; consequently
every fractional result of the fixed-reference script and every sweep
result satisfies `0 ≤ frac < mod` with `mod` in `[2, 4095]`. -/
theorem C7_frac_round_half_up :
    (∀ (FrequencyRemainder ModFrequencyStep : ℚ) (ModToMatch : ℕ),
      0 ≤ FrequencyRemainder → 0 < ModFrequencyStep →
      MAX2870.FracToMatchOf FrequencyRemainder ModFrequencyStep ModToMatch =
        if (ModToMatch : ℤ) ≤ ⌊FrequencyRemainder / ModFrequencyStep + 1/2⌋ then
          (ModToMatch : ℤ) - 1
        else ⌊FrequencyRemainder / ModFrequencyStep + 1/2⌋) ∧
    (∀ (ReferenceFrequency DesiredFrequency : ℚ) (s : MAX2870pf.PFState) (d k : ℕ),
      MAX2870pf.pfCalculate ReferenceFrequency DesiredFrequency = .FractionalResult s d k →
      0 ≤ s.MatchingFrac ∧ s.MatchingFrac < (s.MatchingMod : ℤ) ∧
      2 ≤ s.MatchingMod ∧ s.MatchingMod ≤ 4095) ∧
    (∀ (DesiredFrequency : ℚ) (ReferenceFrequencyStart ReferenceSteps : ℤ),
      0 ≤ (MAX2870spf.spfCalculate DesiredFrequency ReferenceFrequencyStart
            ReferenceSteps).MatchingFrac ∧
      (MAX2870spf.spfCalculate DesiredFrequency ReferenceFrequencyStart
          ReferenceSteps).MatchingFrac <
        ((MAX2870spf.spfCalculate DesiredFrequency ReferenceFrequencyStart
            ReferenceSteps).MatchingMod : ℤ) ∧
      2 ≤ (MAX2870spf.spfCalculate DesiredFrequency ReferenceFrequencyStart
            ReferenceSteps).MatchingMod ∧
      (MAX2870spf.spfCalculate DesiredFrequency ReferenceFrequencyStart
          ReferenceSteps).MatchingMod ≤ 4095) := by
  refine ⟨?_, ?_, ?_⟩
  · intro FrequencyRemainder ModFrequencyStep ModToMatch hrem hstep
    exact MAX2870.FracToMatchOf_eq_floor FrequencyRemainder ModFrequencyStep ModToMatch hrem hstep
  · intro ref rf s d k h
    rw [MAX2870pf.pfCalculate] at h
    split_ifs at h
    rw [MAX2870pf.pfRun] at h
    rcases hIL : MAX2870pf.IntLoopPF ref (MAX2870.vcoLoop rf 40).1 0 1024 false with ⟨o, ma⟩
    rcases o with _ | rn
    · simp only [hIL] at h
      split_ifs at h with hma
      injection h with h1 h2 h3
      subst h1
      exact MAX2870pf.RLoopPF_bounds ref (MAX2870.vcoLoop rf 40).1 1024 0
        (MAX2870pf.initPFState ref ma)
        ⟨le_refl 0, (by norm_num : (0:ℤ) < ((2:ℕ) : ℤ)), le_refl 2,
          (by norm_num : (2:ℕ) ≤ 4095)⟩
    · simp only [hIL] at h
      simp at h
  · intro rf start steps
    exact MAX2870spf.SweepLoop_bounds ((MAX2870spf.ReferenceStepsClamped steps + 1).toNat)
      (MAX2870spf.ReferenceFrequencyStartClamped start steps) (MAX2870spf.spfInitialState rf)
      ⟨le_refl 0, (by norm_num : (0:ℤ) < ((2:ℕ) : ℤ)), le_refl 2,
        (by norm_num : (2:ℕ) ≤ 4095)⟩

/-- C7 witness: the rounding equation at remainder 3, step 2, MOD 4 (ratio
3/2, a tie, which rounds up to 2); the bounds at the reported fractional
state of the run at reference 50500000 Hz and RF 5897342159 Hz; and the
sweep bounds at a negative step count. -/
theorem C7_witness :
    (MAX2870.FracToMatchOf 3 2 4 =
      if ((4:ℕ) : ℤ) ≤ ⌊(3:ℚ) / 2 + 1/2⌋ then ((4:ℕ) : ℤ) - 1 else ⌊(3:ℚ) / 2 + 1/2⌋) ∧
    MAX2870.FracToMatchOf 3 2 4 = 2 ∧
    (0 ≤ (MAX2870pf.initPFState 50500000 true).MatchingFrac ∧
      (MAX2870pf.initPFState 50500000 true).MatchingFrac <
        ((MAX2870pf.initPFState 50500000 true).MatchingMod : ℤ) ∧
      2 ≤ (MAX2870pf.initPFState 50500000 true).MatchingMod ∧
      (MAX2870pf.initPFState 50500000 true).MatchingMod ≤ 4095) ∧
    (0 ≤ (MAX2870spf.spfCalculate 100000000 10000000 (-1)).MatchingFrac ∧
      (MAX2870spf.spfCalculate 100000000 10000000 (-1)).MatchingFrac <
        ((MAX2870spf.spfCalculate 100000000 10000000 (-1)).MatchingMod : ℤ) ∧
      2 ≤ (MAX2870spf.spfCalculate 100000000 10000000 (-1)).MatchingMod ∧
      (MAX2870spf.spfCalculate 100000000 10000000 (-1)).MatchingMod ≤ 4095) :=
  ⟨C7_frac_round_half_up.1 3 2 4 (by norm_num) (by norm_num),
   by decide,
   C7_frac_round_half_up.2.1 50500000 5897342159 (MAX2870pf.initPFState 50500000 true) 1 0
     MAX2870pf.pfCalculate_eval,
   C7_frac_round_half_up.2.2 100000000 10000000 (-1)⟩

namespace MAX2870spf

/-- The MOD loop of MAX2870spf.py never writes `IntegerMode`. -/
theorem ModLoopSPF_IntegerMode (ReferenceFrequencyToMatch pfd FrequencyRemainder : ℚ)
    (RtoMatch : ℕ) (IntTemp : ℤ) :
    ∀ (fuel m0 : ℕ) (s : SPFState),
      (ModLoopSPF ReferenceFrequencyToMatch pfd FrequencyRemainder RtoMatch IntTemp
        m0 fuel s).IntegerMode = s.IntegerMode := by
  intro fuel
  induction fuel with
  | zero =>
    intro m0 s
    rw [ModLoopSPF]
  | succ fuel ih =>
    intro m0 s
    rw [ModLoopSPF]
    split
    · exact ih (m0+1) s
    · simp only []
      repeat' split
      all_goals first
        | rfl
        | exact (ih (m0+1) _).trans rfl

/-- The fractional R loop of MAX2870spf.py never writes `IntegerMode`. -/
theorem RLoopSPF_IntegerMode (ReferenceFrequencyToMatch : ℚ) :
    ∀ (fuel r0 : ℕ) (s : SPFState),
      (RLoopSPF ReferenceFrequencyToMatch r0 fuel s).IntegerMode = s.IntegerMode := by
  intro fuel
  induction fuel with
  | zero =>
    intro r0 s
    rw [RLoopSPF]
  | succ fuel ih =>
    intro r0 s
    rw [RLoopSPF]
    split
    · exact ih (r0+1) s
    · simp only []
      repeat' split
      all_goals first
        | rfl
        | exact ih (r0+1) s
        | exact (ModLoopSPF_IntegerMode _ _ _ _ _ 4096 0 _).trans rfl
        | exact (ih (r0+1) _).trans ((ModLoopSPF_IntegerMode _ _ _ _ _ 4096 0 _).trans rfl)

/-- With the `IntegerMode` latch cleared, a sweep step of MAX2870spf.py is
exactly the fractional-only step: the integer block of lines 73-92 is dead. -/
theorem SweepStep_frac_eq (ReferenceFrequencyToMatch : ℚ) (s : SPFState)
    (h : s.IntegerMode = false) :
    SweepStep ReferenceFrequencyToMatch s = FracOnlySweepStep ReferenceFrequencyToMatch s := by
  have hneg : ¬ s.IntegerMode = true := by
    rw [h]
    exact Bool.false_ne_true
  rw [SweepStep, FracOnlySweepStep]
  simp only []
  by_cases hrf : MinimumRFFrequency ≤ s.DesiredFrequency ∧ s.DesiredFrequency ≤ MaximumRFFrequency
  · rw [if_pos hrf, if_pos hrf, if_neg hneg]
    split
    · next hcontra => simp at hcontra
    · rfl
  · rw [if_neg hrf, if_neg hrf]

/-- A sweep step keeps the `IntegerMode` latch cleared once it is cleared. -/
theorem SweepStep_IntegerMode_false (ReferenceFrequencyToMatch : ℚ) (s : SPFState)
    (h : s.IntegerMode = false) :
    (SweepStep ReferenceFrequencyToMatch s).1.IntegerMode = false := by
  rw [SweepStep_frac_eq _ _ h, FracOnlySweepStep]
  simp only []
  split
  · split
    · exact (RLoopSPF_IntegerMode _ 1024 0 _).trans rfl
    · exact (RLoopSPF_IntegerMode _ 1024 0 _).trans rfl
  · exact h

/-- C3 (amended): in the reference-sweep solver the integer-mode search is
governed by the `IntegerMode` latch, not attempted at every reference.
While the latch is set, a step whose integer search finds an exact match
stops the entire sweep at that reference with the integer result (MOD = 2,
FRAC = 0); a step whose integer search fails falls through to the
fractional search and permanently clears the latch; and once the latch is
cleared, the remaining sweep is exactly the fractional-only sweep, with no
integer-mode attempt at any later reference. -/
theorem C3_amended :
    (∀ (ReferenceFrequencyToMatch : ℚ) (s : SPFState) (rn : ℕ × ℚ) (ma2 : Bool),
      MinimumRFFrequency ≤ s.DesiredFrequency → s.DesiredFrequency ≤ MaximumRFFrequency →
      s.IntegerMode = true →
      IntLoopSPF ReferenceFrequencyToMatch (MAX2870.vcoLoop s.DesiredFrequency 40).1 0 1024
        s.MatchAttempted = (some rn, ma2) →
      (SweepStep ReferenceFrequencyToMatch s).2 = true ∧
      (SweepStep ReferenceFrequencyToMatch s).1.FractionalMode = false ∧
      (SweepStep ReferenceFrequencyToMatch s).1.MatchingR = rn.1 ∧
      (SweepStep ReferenceFrequencyToMatch s).1.MatchingInt = rn.2 ∧
      (SweepStep ReferenceFrequencyToMatch s).1.MatchingMod = 2 ∧
      (SweepStep ReferenceFrequencyToMatch s).1.MatchingFrac = 0 ∧
      (SweepStep ReferenceFrequencyToMatch s).1.FinalReferenceFrequency =
        ReferenceFrequencyToMatch) ∧
    (∀ (ReferenceFrequencyToMatch : ℚ) (s : SPFState) (ma2 : Bool),
      MinimumRFFrequency ≤ s.DesiredFrequency → s.DesiredFrequency ≤ MaximumRFFrequency →
      s.IntegerMode = true →
      IntLoopSPF ReferenceFrequencyToMatch (MAX2870.vcoLoop s.DesiredFrequency 40).1 0 1024
        s.MatchAttempted = (none, ma2) →
      (SweepStep ReferenceFrequencyToMatch s).1.IntegerMode = false) ∧
    (∀ (fuel : ℕ) (ref : ℤ) (s : SPFState), s.IntegerMode = false →
      SweepLoop fuel ref s = FracOnlySweepLoop fuel ref s) := by
  refine ⟨?_, ?_, ?_⟩
  · intro ref s rn ma2 h1 h2 hint hIL
    rw [SweepStep]
    simp only []
    rw [if_pos ⟨h1, h2⟩, if_pos hint, hIL]
    simp only []
    split
    · exact ⟨rfl, rfl, rfl, rfl, rfl, rfl, rfl⟩
    · next hcontra => exact absurd (by simp) hcontra
  · intro ref s ma2 h1 h2 hint hIL
    rw [SweepStep]
    simp only []
    rw [if_pos ⟨h1, h2⟩, if_pos hint, hIL]
    simp only []
    split
    · next hcontra => simp at hcontra
    · split
      · exact (RLoopSPF_IntegerMode _ 1024 0 _).trans rfl
      · exact (RLoopSPF_IntegerMode _ 1024 0 _).trans rfl
  · intro fuel
    induction fuel with
    | zero =>
      intro ref s h
      rw [SweepLoop, FracOnlySweepLoop]
    | succ fuel ih =>
      intro ref s h
      rw [SweepLoop, FracOnlySweepLoop, SweepStep_frac_eq _ _ h]
      by_cases hb : (FracOnlySweepStep ((ref : ℤ) : ℚ) s).2 = true
      · rw [if_pos hb, if_pos hb]
      · rw [if_neg hb, if_neg hb]
        have hint2 := SweepStep_IntegerMode_false ((ref : ℤ) : ℚ) s h
        rw [SweepStep_frac_eq _ _ h] at hint2
        exact ih (ref + 1) _ hint2

set_option maxRecDepth 1000000 in
set_option maxHeartbeats 40000000 in
/-- C3 witness: at reference 100 MHz with RF 4.8 GHz and the latch still
set, the integer search finds N = 48 at R = 1 and the sweep stops there
with the integer result; at reference 10 MHz with RF 5999999999 Hz the
integer search fails and the step clears the latch; and from a cleared
latch a one-step sweep equals the fractional-only sweep. -/
theorem C3_witness :
    ((SweepStep 100000000 (spfInitialState 4800000000)).2 = true ∧
      (SweepStep 100000000 (spfInitialState 4800000000)).1.FractionalMode = false ∧
      (SweepStep 100000000 (spfInitialState 4800000000)).1.MatchingR = 1 ∧
      (SweepStep 100000000 (spfInitialState 4800000000)).1.MatchingInt = 48 ∧
      (SweepStep 100000000 (spfInitialState 4800000000)).1.MatchingMod = 2 ∧
      (SweepStep 100000000 (spfInitialState 4800000000)).1.MatchingFrac = 0 ∧
      (SweepStep 100000000 (spfInitialState 4800000000)).1.FinalReferenceFrequency =
        100000000) ∧
    (SweepStep 10000000 (spfInitialState 5999999999)).1.IntegerMode = false ∧
    SweepLoop 1 10000000
      { FrequencyError := 100, NegativeFrequencyError := false, IntegerMode := false,
        FractionalMode := true, MatchAttempted := true, FinalReferenceFrequency := 10000000,
        MatchingR := 3, MatchingInt := 1650, MatchingMod := 100, MatchingFrac := 17,
        MatchingDivider_PowerOf2 := 0, DesiredFrequency := 5500000550 } =
    FracOnlySweepLoop 1 10000000
      { FrequencyError := 100, NegativeFrequencyError := false, IntegerMode := false,
        FractionalMode := true, MatchAttempted := true, FinalReferenceFrequency := 10000000,
        MatchingR := 3, MatchingInt := 1650, MatchingMod := 100, MatchingFrac := 17,
        MatchingDivider_PowerOf2 := 0, DesiredFrequency := 5500000550 } :=
  ⟨C3_amended.1 100000000 (spfInitialState 4800000000) (1, 48) true
      (by decide) (by decide) rfl (by decide),
   C3_amended.2.1 10000000 (spfInitialState 5999999999) true
      (by decide) (by decide) rfl (by decide),
   C3_amended.2.2 1 10000000
      { FrequencyError := 100, NegativeFrequencyError := false, IntegerMode := false,
        FractionalMode := true, MatchAttempted := true, FinalReferenceFrequency := 10000000,
        MatchingR := 3, MatchingInt := 1650, MatchingMod := 100, MatchingFrac := 17,
        MatchingDivider_PowerOf2 := 0, DesiredFrequency := 5500000550 } rfl⟩

/-- C3 counterexample: the claim that every swept reference attempts the
integer-mode search before any fractional search is false once the latch is
cleared.  At reference 10000001 Hz with VCO frequency 5500000550 Hz the
integer search would find the exact match N = 550 at R = 1, yet from a
state whose `IntegerMode` latch is cleared (as after any earlier fractional
pass) the sweep step reports a fractional-mode result; the same state with
the latch set yields the integer-mode result. -/
theorem C3_counterexample :
    IntLoopSPF 10000001 5500000550 0 1024 true = (some (1, 550), true) ∧
    (SweepStep 10000001
      { FrequencyError := 100, NegativeFrequencyError := false, IntegerMode := false,
        FractionalMode := true, MatchAttempted := true, FinalReferenceFrequency := 10000000,
        MatchingR := 3, MatchingInt := 1650, MatchingMod := 100, MatchingFrac := 17,
        MatchingDivider_PowerOf2 := 0, DesiredFrequency := 5500000550 }).1.FractionalMode =
      true ∧
    (SweepStep 10000001
      { FrequencyError := 100, NegativeFrequencyError := false, IntegerMode := true,
        FractionalMode := true, MatchAttempted := true, FinalReferenceFrequency := 10000000,
        MatchingR := 3, MatchingInt := 1650, MatchingMod := 100, MatchingFrac := 17,
        MatchingDivider_PowerOf2 := 0, DesiredFrequency := 5500000550 }).1.FractionalMode =
      false :=
  ⟨by decide, by decide, by decide⟩

end MAX2870spf

namespace MAX2870

/-- Once a frequency has reached the VCO floor, the normalization loop does
not run again: later sweep iterations leave it unchanged. -/
theorem vcoLoop_fixed (x : ℚ) (hx : 6000000000 / 2 ≤ x) : vcoLoop x 40 = (x, 0) := by
  rw [vcoLoop, if_neg (not_lt.mpr hx)]

end MAX2870

namespace MAX2870spf

/-- The MOD loop of MAX2870spf.py never writes `DesiredFrequency`. -/
theorem ModLoopSPF_DesiredFrequency (ReferenceFrequencyToMatch pfd FrequencyRemainder : ℚ)
    (RtoMatch : ℕ) (IntTemp : ℤ) :
    ∀ (fuel m0 : ℕ) (s : SPFState),
      (ModLoopSPF ReferenceFrequencyToMatch pfd FrequencyRemainder RtoMatch IntTemp
        m0 fuel s).DesiredFrequency = s.DesiredFrequency := by
  intro fuel
  induction fuel with
  | zero =>
    intro m0 s
    rw [ModLoopSPF]
  | succ fuel ih =>
    intro m0 s
    rw [ModLoopSPF]
    split
    · exact ih (m0+1) s
    · simp only []
      repeat' split
      all_goals first
        | rfl
        | exact (ih (m0+1) _).trans rfl

/-- The fractional R loop of MAX2870spf.py never writes `DesiredFrequency`. -/
theorem RLoopSPF_DesiredFrequency (ReferenceFrequencyToMatch : ℚ) :
    ∀ (fuel r0 : ℕ) (s : SPFState),
      (RLoopSPF ReferenceFrequencyToMatch r0 fuel s).DesiredFrequency = s.DesiredFrequency := by
  intro fuel
  induction fuel with
  | zero =>
    intro r0 s
    rw [RLoopSPF]
  | succ fuel ih =>
    intro r0 s
    rw [RLoopSPF]
    split
    · exact ih (r0+1) s
    · simp only []
      repeat' split
      all_goals first
        | rfl
        | exact ih (r0+1) s
        | exact (ModLoopSPF_DesiredFrequency _ _ _ _ _ 4096 0 _).trans rfl
        | exact (ih (r0+1) _).trans ((ModLoopSPF_DesiredFrequency _ _ _ _ _ 4096 0 _).trans rfl)

/-- Provenance of the sign flag through the MOD loop of MAX2870spf.py: the
loop overwrites `NegativeFrequencyError` at every examined modulus (lines
119-123), whether or not the candidate improves on the best error, so after
the loop the flag is either untouched or the sign of the candidate error of
some examined modulus (in the code, the most recently examined one) — not
necessarily the sign of the best-so-far candidate the other fields hold. -/
theorem ModLoopSPF_neg_src (ReferenceFrequencyToMatch pfd FrequencyRemainder : ℚ)
    (RtoMatch : ℕ) (IntTemp : ℤ) :
    ∀ (fuel m0 : ℕ) (s : SPFState),
      (ModLoopSPF ReferenceFrequencyToMatch pfd FrequencyRemainder RtoMatch IntTemp
          m0 fuel s).NegativeFrequencyError = s.NegativeFrequencyError ∨
      ∃ m : ℕ, 2 ≤ m ∧ m0 ≤ m ∧ m < m0 + fuel ∧
        (ModLoopSPF ReferenceFrequencyToMatch pfd FrequencyRemainder RtoMatch IntTemp
            m0 fuel s).NegativeFrequencyError =
          decide (CandidateError pfd FrequencyRemainder m < 0) := by
  intro fuel
  induction fuel with
  | zero =>
    intro m0 s
    rw [ModLoopSPF]
    exact Or.inl rfl
  | succ fuel ih =>
    intro m0 s
    rw [ModLoopSPF]
    by_cases hm : m0 < 2
    · rw [if_pos hm]
      rcases ih (m0+1) s with h | ⟨m, hm2, hml, hmu, hne⟩
      · exact Or.inl h
      · exact Or.inr ⟨m, hm2, by omega, by omega, hne⟩
    · rw [if_neg hm]
      simp only []
      by_cases hc : (if CandidateError pfd FrequencyRemainder m0 < 0 then
          -CandidateError pfd FrequencyRemainder m0 else
          CandidateError pfd FrequencyRemainder m0) < s.FrequencyError
      · rw [if_pos hc]
        by_cases hz :
            ({ s with
                FinalReferenceFrequency := ReferenceFrequencyToMatch,
                FrequencyError := if CandidateError pfd FrequencyRemainder m0 < 0 then
                  -CandidateError pfd FrequencyRemainder m0 else
                  CandidateError pfd FrequencyRemainder m0,
                NegativeFrequencyError := decide (CandidateError pfd FrequencyRemainder m0 < 0),
                MatchingR := RtoMatch, MatchingInt := (IntTemp : ℚ),
                MatchingMod := m0,
                MatchingFrac := MAX2870.FracToMatchOf FrequencyRemainder (pfd / (m0 : ℚ)) m0 } :
              SPFState).FrequencyError = 0
        · rw [if_pos hz]
          exact Or.inr ⟨m0, by omega, by omega, by omega, rfl⟩
        · rw [if_neg hz]
          rcases ih (m0+1)
              ({ s with
                FinalReferenceFrequency := ReferenceFrequencyToMatch,
                FrequencyError := if CandidateError pfd FrequencyRemainder m0 < 0 then
                  -CandidateError pfd FrequencyRemainder m0 else
                  CandidateError pfd FrequencyRemainder m0,
                NegativeFrequencyError := decide (CandidateError pfd FrequencyRemainder m0 < 0),
                MatchingR := RtoMatch, MatchingInt := (IntTemp : ℚ),
                MatchingMod := m0,
                MatchingFrac := MAX2870.FracToMatchOf FrequencyRemainder (pfd / (m0 : ℚ)) m0 } :
              SPFState) with h | ⟨m, hm2, hml, hmu, hne⟩
          · exact Or.inr ⟨m0, by omega, by omega, by omega, h.trans rfl⟩
          · exact Or.inr ⟨m, hm2, by omega, by omega, hne⟩
      · rw [if_neg hc]
        by_cases hz :
            ({ s with
                NegativeFrequencyError := decide (CandidateError pfd FrequencyRemainder m0 < 0) } :
              SPFState).FrequencyError = 0
        · rw [if_pos hz]
          exact Or.inr ⟨m0, by omega, by omega, by omega, rfl⟩
        · rw [if_neg hz]
          rcases ih (m0+1)
              ({ s with
                NegativeFrequencyError := decide (CandidateError pfd FrequencyRemainder m0 < 0) } :
              SPFState) with h | ⟨m, hm2, hml, hmu, hne⟩
          · exact Or.inr ⟨m0, by omega, by omega, by omega, h.trans rfl⟩
          · exact Or.inr ⟨m, hm2, by omega, by omega, hne⟩

/-- Provenance of the sign flag through the fractional R loop of
MAX2870spf.py: after the loop, `NegativeFrequencyError` is either untouched
or the sign of the candidate error of some examined feasible (R, MOD) pair
of this loop. -/
theorem RLoopSPF_neg_src (ReferenceFrequencyToMatch : ℚ) :
    ∀ (fuel r0 : ℕ) (s : SPFState),
      (RLoopSPF ReferenceFrequencyToMatch r0 fuel s).NegativeFrequencyError =
        s.NegativeFrequencyError ∨
      ∃ r m : ℕ, r ≠ 0 ∧ 2 ≤ m ∧ m ≤ 4095 ∧
        (MinimumPFDFrequency ≤ ReferenceFrequencyToMatch / (r : ℚ) ∧
          ReferenceFrequencyToMatch / (r : ℚ) ≤ FracMaximumPFDFrequency) ∧
        (FracMinimumInt ≤ ⌊s.DesiredFrequency / (ReferenceFrequencyToMatch / (r : ℚ))⌋ ∧
          ⌊s.DesiredFrequency / (ReferenceFrequencyToMatch / (r : ℚ))⌋ ≤ FracMaximumInt) ∧
        (RLoopSPF ReferenceFrequencyToMatch r0 fuel s).NegativeFrequencyError =
          decide (CandidateError (ReferenceFrequencyToMatch / (r : ℚ))
            (s.DesiredFrequency -
              ((⌊s.DesiredFrequency / (ReferenceFrequencyToMatch / (r : ℚ))⌋ : ℤ) : ℚ) *
                (ReferenceFrequencyToMatch / (r : ℚ))) m < 0) := by
  intro fuel
  induction fuel with
  | zero =>
    intro r0 s
    rw [RLoopSPF]
    exact Or.inl rfl
  | succ fuel ih =>
    intro r0 s
    rw [RLoopSPF]
    by_cases hr0 : r0 = 0
    · rw [if_pos hr0]
      exact ih (r0+1) s
    · rw [if_neg hr0]
      simp only []
      by_cases hp : MinimumPFDFrequency ≤ ReferenceFrequencyToMatch / (r0 : ℚ) ∧
          ReferenceFrequencyToMatch / (r0 : ℚ) ≤ FracMaximumPFDFrequency
      · rw [if_pos hp]
        by_cases hn : FracMinimumInt ≤ ⌊s.DesiredFrequency / (ReferenceFrequencyToMatch / (r0 : ℚ))⌋ ∧
            ⌊s.DesiredFrequency / (ReferenceFrequencyToMatch / (r0 : ℚ))⌋ ≤ FracMaximumInt
        · rw [if_pos hn]
          have hsrc := ModLoopSPF_neg_src ReferenceFrequencyToMatch
            (ReferenceFrequencyToMatch / (r0 : ℚ))
            (s.DesiredFrequency -
              ((⌊s.DesiredFrequency / (ReferenceFrequencyToMatch / (r0 : ℚ))⌋ : ℤ) : ℚ) *
                (ReferenceFrequencyToMatch / (r0 : ℚ))) r0
            ⌊s.DesiredFrequency / (ReferenceFrequencyToMatch / (r0 : ℚ))⌋ 4096 0
            { s with MatchAttempted := true }
          by_cases hz : (ModLoopSPF ReferenceFrequencyToMatch
              (ReferenceFrequencyToMatch / (r0 : ℚ))
              (s.DesiredFrequency -
                ((⌊s.DesiredFrequency / (ReferenceFrequencyToMatch / (r0 : ℚ))⌋ : ℤ) : ℚ) *
                  (ReferenceFrequencyToMatch / (r0 : ℚ))) r0
              ⌊s.DesiredFrequency / (ReferenceFrequencyToMatch / (r0 : ℚ))⌋ 0 4096
              { s with MatchAttempted := true }).FrequencyError = 0
          · rw [if_pos hz]
            rcases hsrc with h | ⟨m, hm2, hml, hmu, hne⟩
            · exact Or.inl h
            · exact Or.inr ⟨r0, m, hr0, hm2, by omega, hp, hn, hne⟩
          · rw [if_neg hz]
            rcases ih (r0+1) (ModLoopSPF ReferenceFrequencyToMatch
                (ReferenceFrequencyToMatch / (r0 : ℚ))
                (s.DesiredFrequency -
                  ((⌊s.DesiredFrequency / (ReferenceFrequencyToMatch / (r0 : ℚ))⌋ : ℤ) : ℚ) *
                    (ReferenceFrequencyToMatch / (r0 : ℚ))) r0
                ⌊s.DesiredFrequency / (ReferenceFrequencyToMatch / (r0 : ℚ))⌋ 0 4096
                { s with MatchAttempted := true })
                with h | ⟨r, m, hr, hm2, hm4, hfp, hfn, hne⟩
            · rcases hsrc with h2 | ⟨m, hm2, hml, hmu, hne⟩
              · exact Or.inl (h.trans h2)
              · exact Or.inr ⟨r0, m, hr0, hm2, by omega, hp, hn, h.trans hne⟩
            · rw [ModLoopSPF_DesiredFrequency] at hfn hne
              exact Or.inr ⟨r, m, hr, hm2, hm4, hfp, hfn, hne⟩
        · rw [if_neg hn]
          by_cases hgt : FracMaximumInt < ⌊s.DesiredFrequency / (ReferenceFrequencyToMatch / (r0 : ℚ))⌋
          · rw [if_pos hgt]
            exact Or.inl rfl
          · rw [if_neg hgt]
            exact ih (r0+1) s
      · rw [if_neg hp]
        exact ih (r0+1) s

/-- A sweep step either leaves `DesiredFrequency` unchanged (when the RF
range check fails) or sets it to the normalized VCO frequency. -/
theorem SweepStep_Desired (ReferenceFrequencyToMatch : ℚ) (s : SPFState) :
    (SweepStep ReferenceFrequencyToMatch s).1.DesiredFrequency = s.DesiredFrequency ∨
    (SweepStep ReferenceFrequencyToMatch s).1.DesiredFrequency =
      (MAX2870.vcoLoop s.DesiredFrequency 40).1 := by
  rw [SweepStep]
  simp only []
  split
  · right
    repeat' split
    all_goals first
      | rfl
      | exact (RLoopSPF_DesiredFrequency _ 1024 0 _).trans rfl
  · left
    rfl

/-- Provenance of the sign flag through one sweep step of MAX2870spf.py:
the step either leaves `NegativeFrequencyError` untouched (RF out of range,
or an integer-mode exact match, which never writes the flag) or hands it to
the fractional search, whose result flag is the sign of some examined
feasible (R, MOD) candidate at this reference. -/
theorem SweepStep_neg_src (ReferenceFrequencyToMatch : ℚ) (s : SPFState) :
    (SweepStep ReferenceFrequencyToMatch s).1.NegativeFrequencyError =
      s.NegativeFrequencyError ∨
    ∃ r m : ℕ, r ≠ 0 ∧ 2 ≤ m ∧ m ≤ 4095 ∧
      (MinimumPFDFrequency ≤ ReferenceFrequencyToMatch / (r : ℚ) ∧
        ReferenceFrequencyToMatch / (r : ℚ) ≤ FracMaximumPFDFrequency) ∧
      (FracMinimumInt ≤
          ⌊(MAX2870.vcoLoop s.DesiredFrequency 40).1 / (ReferenceFrequencyToMatch / (r : ℚ))⌋ ∧
        ⌊(MAX2870.vcoLoop s.DesiredFrequency 40).1 / (ReferenceFrequencyToMatch / (r : ℚ))⌋ ≤
          FracMaximumInt) ∧
      (SweepStep ReferenceFrequencyToMatch s).1.NegativeFrequencyError =
        decide (CandidateError (ReferenceFrequencyToMatch / (r : ℚ))
          ((MAX2870.vcoLoop s.DesiredFrequency 40).1 -
            ((⌊(MAX2870.vcoLoop s.DesiredFrequency 40).1 /
                (ReferenceFrequencyToMatch / (r : ℚ))⌋ : ℤ) : ℚ) *
              (ReferenceFrequencyToMatch / (r : ℚ))) m < 0) := by
  rw [SweepStep]
  simp only []
  by_cases hrf : MinimumRFFrequency ≤ s.DesiredFrequency ∧ s.DesiredFrequency ≤ MaximumRFFrequency
  · rw [if_pos hrf]
    by_cases hint : s.IntegerMode = true
    · rw [if_pos hint]
      rcases hIL : IntLoopSPF ReferenceFrequencyToMatch
          (MAX2870.vcoLoop s.DesiredFrequency 40).1 0 1024 s.MatchAttempted with ⟨o, ma2⟩
      rcases o with _ | rn
      · simp only []
        split
        · exact Or.inl rfl
        · split
          · rcases RLoopSPF_neg_src ReferenceFrequencyToMatch 1024 0
                { s with
                  FractionalMode := true,
                  DesiredFrequency := (MAX2870.vcoLoop s.DesiredFrequency 40).1,
                  MatchingDivider_PowerOf2 :=
                    s.MatchingDivider_PowerOf2 + (MAX2870.vcoLoop s.DesiredFrequency 40).2,
                  MatchAttempted := ma2, IntegerMode := false }
                with h | ⟨r, m, hr, hm2, hm4, hfp, hfn, hne⟩
            · exact Or.inl h
            · exact Or.inr ⟨r, m, hr, hm2, hm4, hfp, hfn, hne⟩
          · rcases RLoopSPF_neg_src ReferenceFrequencyToMatch 1024 0
                { s with
                  FractionalMode := true,
                  DesiredFrequency := (MAX2870.vcoLoop s.DesiredFrequency 40).1,
                  MatchingDivider_PowerOf2 :=
                    s.MatchingDivider_PowerOf2 + (MAX2870.vcoLoop s.DesiredFrequency 40).2,
                  MatchAttempted := ma2, IntegerMode := false }
                with h | ⟨r, m, hr, hm2, hm4, hfp, hfn, hne⟩
            · exact Or.inl h
            · exact Or.inr ⟨r, m, hr, hm2, hm4, hfp, hfn, hne⟩
      · simp only []
        split
        · exact Or.inl rfl
        · next hcontra => exact absurd (by simp) hcontra
    · rw [if_neg hint]
      split
      · exact Or.inl rfl
      · split
        · rcases RLoopSPF_neg_src ReferenceFrequencyToMatch 1024 0
              { s with
                FractionalMode := true,
                DesiredFrequency := (MAX2870.vcoLoop s.DesiredFrequency 40).1,
                MatchingDivider_PowerOf2 :=
                  s.MatchingDivider_PowerOf2 + (MAX2870.vcoLoop s.DesiredFrequency 40).2,
                IntegerMode := false }
              with h | ⟨r, m, hr, hm2, hm4, hfp, hfn, hne⟩
          · exact Or.inl h
          · exact Or.inr ⟨r, m, hr, hm2, hm4, hfp, hfn, hne⟩
        · rcases RLoopSPF_neg_src ReferenceFrequencyToMatch 1024 0
              { s with
                FractionalMode := true,
                DesiredFrequency := (MAX2870.vcoLoop s.DesiredFrequency 40).1,
                MatchingDivider_PowerOf2 :=
                  s.MatchingDivider_PowerOf2 + (MAX2870.vcoLoop s.DesiredFrequency 40).2,
                IntegerMode := false }
              with h | ⟨r, m, hr, hm2, hm4, hfp, hfn, hne⟩
          · exact Or.inl h
          · exact Or.inr ⟨r, m, hr, hm2, hm4, hfp, hfn, hne⟩
  · rw [if_neg hrf]
    exact Or.inl rfl

/-- A sweep step at an out-of-range RF frequency only sets `FractionalMode`
and stops the sweep. -/
theorem SweepStep_out_of_range (ReferenceFrequencyToMatch : ℚ) (s : SPFState)
    (h : ¬ (MinimumRFFrequency ≤ s.DesiredFrequency ∧ s.DesiredFrequency ≤ MaximumRFFrequency)) :
    SweepStep ReferenceFrequencyToMatch s = ({ s with FractionalMode := true }, true) := by
  rw [SweepStep]
  simp only []
  rw [if_neg h]

/-- A sweep over an out-of-range RF frequency stops at its first step with
the globals untouched apart from `FractionalMode`. -/
theorem SweepLoop_out_of_range (fuel : ℕ) (ref : ℤ) (s : SPFState)
    (h : ¬ (MinimumRFFrequency ≤ s.DesiredFrequency ∧ s.DesiredFrequency ≤ MaximumRFFrequency)) :
    SweepLoop fuel ref s = s ∨ SweepLoop fuel ref s = { s with FractionalMode := true } := by
  cases fuel with
  | zero =>
    left
    rw [SweepLoop]
  | succ fuel =>
    right
    rw [SweepLoop, SweepStep_out_of_range _ _ h]
    split
    · rfl
    · next hcontra => exact absurd rfl hcontra

/-- Provenance of the sign flag through the whole reference sweep: provided
the VCO frequency `V` is a fixed point of the normalizer and the state
already normalizes to `V`, the final `NegativeFrequencyError` is either the
initial flag or the sign of the candidate error of some feasible (R, MOD)
pair examined at some swept reference. -/
theorem SweepLoop_neg_src (V : ℚ) (hV : (MAX2870.vcoLoop V 40).1 = V) :
    ∀ (fuel : ℕ) (ref : ℤ) (s : SPFState),
      (MAX2870.vcoLoop s.DesiredFrequency 40).1 = V →
      (SweepLoop fuel ref s).NegativeFrequencyError = s.NegativeFrequencyError ∨
      ∃ (rr : ℤ) (r m : ℕ), ref ≤ rr ∧ rr < ref + (fuel : ℤ) ∧ r ≠ 0 ∧ 2 ≤ m ∧ m ≤ 4095 ∧
        (MinimumPFDFrequency ≤ (rr : ℚ) / (r : ℚ) ∧
          (rr : ℚ) / (r : ℚ) ≤ FracMaximumPFDFrequency) ∧
        (FracMinimumInt ≤ ⌊V / ((rr : ℚ) / (r : ℚ))⌋ ∧
          ⌊V / ((rr : ℚ) / (r : ℚ))⌋ ≤ FracMaximumInt) ∧
        (SweepLoop fuel ref s).NegativeFrequencyError =
          decide (CandidateError ((rr : ℚ) / (r : ℚ))
            (V - ((⌊V / ((rr : ℚ) / (r : ℚ))⌋ : ℤ) : ℚ) * ((rr : ℚ) / (r : ℚ))) m < 0) := by
  intro fuel
  induction fuel with
  | zero =>
    intro ref s hs
    rw [SweepLoop]
    exact Or.inl rfl
  | succ fuel ih =>
    intro ref s hs
    rw [SweepLoop]
    by_cases hb : (SweepStep ((ref : ℤ) : ℚ) s).2 = true
    · rw [if_pos hb]
      rcases SweepStep_neg_src ((ref : ℤ) : ℚ) s with h | ⟨r, m, hr, hm2, hm4, hfp, hfn, hne⟩
      · exact Or.inl h
      · rw [hs] at hfn hne
        exact Or.inr ⟨ref, r, m, le_refl ref, by omega, hr, hm2, hm4, hfp, hfn, hne⟩
    · rw [if_neg hb]
      have hsD : (MAX2870.vcoLoop (SweepStep ((ref : ℤ) : ℚ) s).1.DesiredFrequency 40).1 = V := by
        rcases SweepStep_Desired ((ref : ℤ) : ℚ) s with hD | hD
        · rw [hD, hs]
        · rw [hD, hs, hV]
      rcases ih (ref + 1) (SweepStep ((ref : ℤ) : ℚ) s).1 hsD
          with h | ⟨rr, r, m, h1, h2, hr, hm2, hm4, hfp, hfn, hne⟩
      · rcases SweepStep_neg_src ((ref : ℤ) : ℚ) s with h2 | ⟨r, m, hr, hm2, hm4, hfp, hfn, hne⟩
        · exact Or.inl (h.trans h2)
        · rw [hs] at hfn hne
          exact Or.inr ⟨ref, r, m, le_refl ref, by omega, hr, hm2, hm4, hfp, hfn, h.trans hne⟩
      · exact Or.inr ⟨rr, r, m, by omega, by omega, hr, hm2, hm4, hfp, hfn, hne⟩

end MAX2870spf

/-- C2 (amended): the reported frequency error is the sign-restored value
of the stored error registers, which need not describe the reported
register tuple, and the two scripts diverge from the claim differently.
Fixed-reference script: the stored pair (`FrequencyError`,
`NegativeFrequencyError`) is either the untouched initialization
(`FrequencyError = ReferenceFrequency`, line 43) or the absolute error and
sign of some examined feasible (R, MOD) candidate (the most recently
examined one), and the printed error scales the stored magnitude by the RF
divider in both sign branches (lines 121-123).  Reference-sweep script: the
Matching fields and `FrequencyError` are a true best-so-far, but
`NegativeFrequencyError` is overwritten by every examined candidate, so the
final flag is the initial one or the sign of some candidate examined at
some swept reference — not necessarily the reported one; and the printed
error divides by the RF divider only in the negative branch (the division
at line 144 is inside the `if`), so a positive error is printed unscaled. -/
theorem C2_amended :
    (∀ (ReferenceFrequency DesiredFrequency : ℚ) (s : MAX2870pf.PFState) (d k : ℕ),
      MAX2870pf.pfCalculate ReferenceFrequency DesiredFrequency = .FractionalResult s d k →
      (s.FrequencyError = ReferenceFrequency ∧ s.NegativeFrequencyError = false) ∨
      ∃ r m : ℕ, r ≠ 0 ∧ 2 ≤ m ∧ m ≤ 4095 ∧
        (MAX2870pf.MinimumPFDFrequency ≤ ReferenceFrequency / (r : ℚ) ∧
          ReferenceFrequency / (r : ℚ) ≤ MAX2870pf.FracMaximumPFDFrequency) ∧
        (MAX2870pf.FracMinimumInt ≤
            ⌊(MAX2870.vcoLoop DesiredFrequency 40).1 / (ReferenceFrequency / (r : ℚ))⌋ ∧
          ⌊(MAX2870.vcoLoop DesiredFrequency 40).1 / (ReferenceFrequency / (r : ℚ))⌋ ≤
            MAX2870pf.FracMaximumInt) ∧
        s.FrequencyError =
          (if MAX2870pf.CandidateError (ReferenceFrequency / (r : ℚ))
              ((MAX2870.vcoLoop DesiredFrequency 40).1 -
                ((⌊(MAX2870.vcoLoop DesiredFrequency 40).1 /
                    (ReferenceFrequency / (r : ℚ))⌋ : ℤ) : ℚ) *
                  (ReferenceFrequency / (r : ℚ))) m < 0 then
            -MAX2870pf.CandidateError (ReferenceFrequency / (r : ℚ))
              ((MAX2870.vcoLoop DesiredFrequency 40).1 -
                ((⌊(MAX2870.vcoLoop DesiredFrequency 40).1 /
                    (ReferenceFrequency / (r : ℚ))⌋ : ℤ) : ℚ) *
                  (ReferenceFrequency / (r : ℚ))) m
          else MAX2870pf.CandidateError (ReferenceFrequency / (r : ℚ))
              ((MAX2870.vcoLoop DesiredFrequency 40).1 -
                ((⌊(MAX2870.vcoLoop DesiredFrequency 40).1 /
                    (ReferenceFrequency / (r : ℚ))⌋ : ℤ) : ℚ) *
                  (ReferenceFrequency / (r : ℚ))) m) ∧
        s.NegativeFrequencyError =
          decide (MAX2870pf.CandidateError (ReferenceFrequency / (r : ℚ))
              ((MAX2870.vcoLoop DesiredFrequency 40).1 -
                ((⌊(MAX2870.vcoLoop DesiredFrequency 40).1 /
                    (ReferenceFrequency / (r : ℚ))⌋ : ℤ) : ℚ) *
                  (ReferenceFrequency / (r : ℚ))) m < 0)) ∧
    (∀ (s : MAX2870pf.PFState) (d : ℕ),
      (s.NegativeFrequencyError = false →
        MAX2870pf.pfReportedFrequencyError s d = s.FrequencyError / (d : ℚ)) ∧
      (s.NegativeFrequencyError = true →
        MAX2870pf.pfReportedFrequencyError s d = -s.FrequencyError / (d : ℚ))) ∧
    (∀ (DesiredFrequency : ℚ) (ReferenceFrequencyStart ReferenceSteps : ℤ),
      (MAX2870spf.spfCalculate DesiredFrequency ReferenceFrequencyStart
          ReferenceSteps).NegativeFrequencyError = false ∨
      ∃ (rr : ℤ) (r m : ℕ),
        MAX2870spf.ReferenceFrequencyStartClamped ReferenceFrequencyStart ReferenceSteps ≤ rr ∧
        rr < MAX2870spf.ReferenceFrequencyStartClamped ReferenceFrequencyStart ReferenceSteps +
          (((MAX2870spf.ReferenceStepsClamped ReferenceSteps + 1).toNat : ℕ) : ℤ) ∧
        r ≠ 0 ∧ 2 ≤ m ∧ m ≤ 4095 ∧
        (MAX2870spf.MinimumPFDFrequency ≤ (rr : ℚ) / (r : ℚ) ∧
          (rr : ℚ) / (r : ℚ) ≤ MAX2870spf.FracMaximumPFDFrequency) ∧
        (MAX2870spf.FracMinimumInt ≤
            ⌊(MAX2870.vcoLoop DesiredFrequency 40).1 / ((rr : ℚ) / (r : ℚ))⌋ ∧
          ⌊(MAX2870.vcoLoop DesiredFrequency 40).1 / ((rr : ℚ) / (r : ℚ))⌋ ≤
            MAX2870spf.FracMaximumInt) ∧
        (MAX2870spf.spfCalculate DesiredFrequency ReferenceFrequencyStart
            ReferenceSteps).NegativeFrequencyError =
          decide (MAX2870spf.CandidateError ((rr : ℚ) / (r : ℚ))
            ((MAX2870.vcoLoop DesiredFrequency 40).1 -
              ((⌊(MAX2870.vcoLoop DesiredFrequency 40).1 / ((rr : ℚ) / (r : ℚ))⌋ : ℤ) : ℚ) *
                ((rr : ℚ) / (r : ℚ))) m < 0)) ∧
    (∀ s : MAX2870spf.SPFState,
      (s.NegativeFrequencyError = false →
        MAX2870spf.spfReportedFrequencyError s = s.FrequencyError) ∧
      (s.NegativeFrequencyError = true →
        MAX2870spf.spfReportedFrequencyError s =
          -s.FrequencyError / ((2 ^ s.MatchingDivider_PowerOf2 : ℕ) : ℚ))) := by
  refine ⟨?_, ?_, ?_, ?_⟩
  · intro ref rf s d k h
    rw [MAX2870pf.pfCalculate] at h
    split_ifs at h
    rw [MAX2870pf.pfRun] at h
    rcases hIL : MAX2870pf.IntLoopPF ref (MAX2870.vcoLoop rf 40).1 0 1024 false with ⟨o, ma⟩
    rcases o with _ | rn
    · simp only [hIL] at h
      split_ifs at h with hma
      injection h with h1 h2 h3
      subst h1
      rcases MAX2870pf.RLoopPF_error_src ref (MAX2870.vcoLoop rf 40).1 1024 0
          (MAX2870pf.initPFState ref ma)
        with hkeep | ⟨r, m, hr, hm2, hm4, hfp, hfn, he, hne⟩
      · exact Or.inl ⟨hkeep.1, hkeep.2⟩
      · exact Or.inr ⟨r, m, hr, hm2, hm4, hfp, hfn, he, hne⟩
    · simp only [hIL] at h
      simp at h
  · intro s d
    constructor
    · intro h
      rw [MAX2870pf.pfReportedFrequencyError, h, if_neg Bool.false_ne_true]
    · intro h
      rw [MAX2870pf.pfReportedFrequencyError, h, if_pos rfl]
  · intro rf start steps
    by_cases hrf : MAX2870spf.MinimumRFFrequency ≤ rf ∧ rf ≤ MAX2870spf.MaximumRFFrequency
    · have h1 := hrf.1
      norm_num [MAX2870spf.MinimumRFFrequency] at h1
      have h11 : (6000000000 : ℚ) / 2 ≤ rf * 2 ^ 11 := by
        norm_num
        linarith
      have hge : (6000000000 : ℚ) / 2 ≤ (MAX2870.vcoLoop rf 40).1 := by
        rw [MAX2870.vcoLoop_stable 11 rf 40 h11 (by omega)]
        exact MAX2870.vcoLoop_ge 11 rf h11
      have hVfix : (MAX2870.vcoLoop (MAX2870.vcoLoop rf 40).1 40).1 =
          (MAX2870.vcoLoop rf 40).1 := by
        rw [MAX2870.vcoLoop_fixed _ hge]
      rcases MAX2870spf.SweepLoop_neg_src (MAX2870.vcoLoop rf 40).1 hVfix
          ((MAX2870spf.ReferenceStepsClamped steps + 1).toNat)
          (MAX2870spf.ReferenceFrequencyStartClamped start steps)
          (MAX2870spf.spfInitialState rf) rfl
        with h | ⟨rr, r, m, hb1, hb2, hr, hm2, hm4, hfp, hfn, hne⟩
      · exact Or.inl h
      · exact Or.inr ⟨rr, r, m, hb1, hb2, hr, hm2, hm4, hfp, hfn, hne⟩
    · left
      rcases MAX2870spf.SweepLoop_out_of_range
          ((MAX2870spf.ReferenceStepsClamped steps + 1).toNat)
          (MAX2870spf.ReferenceFrequencyStartClamped start steps)
          (MAX2870spf.spfInitialState rf) hrf with hcase | hcase
      · show (MAX2870spf.SweepLoop ((MAX2870spf.ReferenceStepsClamped steps + 1).toNat)
            (MAX2870spf.ReferenceFrequencyStartClamped start steps)
            (MAX2870spf.spfInitialState rf)).NegativeFrequencyError = false
        rw [hcase]
        rfl
      · show (MAX2870spf.SweepLoop ((MAX2870spf.ReferenceStepsClamped steps + 1).toNat)
            (MAX2870spf.ReferenceFrequencyStartClamped start steps)
            (MAX2870spf.spfInitialState rf)).NegativeFrequencyError = false
        rw [hcase]
        rfl
  · intro s
    constructor
    · intro h
      rw [MAX2870spf.spfReportedFrequencyError, h, if_neg Bool.false_ne_true]
    · intro h
      rw [MAX2870spf.spfReportedFrequencyError, h, if_pos rfl]

/-- C2 witness: the fixed-reference provenance applied to the run at
reference 50500000 Hz and RF 5897342159 Hz (whose fractional search
examines no candidate, so the untouched-initialization disjunct holds), and
the reporting formulas applied at concrete states with each sign flag. -/
theorem C2_witness :
    (((MAX2870pf.initPFState 50500000 true).FrequencyError = 50500000 ∧
      (MAX2870pf.initPFState 50500000 true).NegativeFrequencyError = false) ∨
    ∃ r m : ℕ, r ≠ 0 ∧ 2 ≤ m ∧ m ≤ 4095 ∧
      (MAX2870pf.MinimumPFDFrequency ≤ 50500000 / (r : ℚ) ∧
        50500000 / (r : ℚ) ≤ MAX2870pf.FracMaximumPFDFrequency) ∧
      (MAX2870pf.FracMinimumInt ≤
          ⌊(MAX2870.vcoLoop 5897342159 40).1 / (50500000 / (r : ℚ))⌋ ∧
        ⌊(MAX2870.vcoLoop 5897342159 40).1 / (50500000 / (r : ℚ))⌋ ≤
          MAX2870pf.FracMaximumInt) ∧
      (MAX2870pf.initPFState 50500000 true).FrequencyError =
        (if MAX2870pf.CandidateError (50500000 / (r : ℚ))
            ((MAX2870.vcoLoop 5897342159 40).1 -
              ((⌊(MAX2870.vcoLoop 5897342159 40).1 / (50500000 / (r : ℚ))⌋ : ℤ) : ℚ) *
                (50500000 / (r : ℚ))) m < 0 then
          -MAX2870pf.CandidateError (50500000 / (r : ℚ))
            ((MAX2870.vcoLoop 5897342159 40).1 -
              ((⌊(MAX2870.vcoLoop 5897342159 40).1 / (50500000 / (r : ℚ))⌋ : ℤ) : ℚ) *
                (50500000 / (r : ℚ))) m
        else MAX2870pf.CandidateError (50500000 / (r : ℚ))
            ((MAX2870.vcoLoop 5897342159 40).1 -
              ((⌊(MAX2870.vcoLoop 5897342159 40).1 / (50500000 / (r : ℚ))⌋ : ℤ) : ℚ) *
                (50500000 / (r : ℚ))) m) ∧
      (MAX2870pf.initPFState 50500000 true).NegativeFrequencyError =
        decide (MAX2870pf.CandidateError (50500000 / (r : ℚ))
            ((MAX2870.vcoLoop 5897342159 40).1 -
              ((⌊(MAX2870.vcoLoop 5897342159 40).1 / (50500000 / (r : ℚ))⌋ : ℤ) : ℚ) *
                (50500000 / (r : ℚ))) m < 0)) ∧
    MAX2870pf.pfReportedFrequencyError (MAX2870pf.initPFState 50500000 true) 1 =
      (MAX2870pf.initPFState 50500000 true).FrequencyError / ((1 : ℕ) : ℚ) ∧
    MAX2870spf.spfReportedFrequencyError (MAX2870spf.spfInitialState 5500000550) =
      (MAX2870spf.spfInitialState 5500000550).FrequencyError ∧
    MAX2870spf.spfReportedFrequencyError
        { MAX2870spf.spfInitialState 5500000550 with NegativeFrequencyError := true } =
      -({ MAX2870spf.spfInitialState 5500000550 with
          NegativeFrequencyError := true } : MAX2870spf.SPFState).FrequencyError /
        ((2 ^ ({ MAX2870spf.spfInitialState 5500000550 with
          NegativeFrequencyError := true } :
            MAX2870spf.SPFState).MatchingDivider_PowerOf2 : ℕ) : ℚ) :=
  ⟨C2_amended.1 50500000 5897342159 (MAX2870pf.initPFState 50500000 true) 1 0
      MAX2870pf.pfCalculate_eval,
   (C2_amended.2.1 (MAX2870pf.initPFState 50500000 true) 1).1 rfl,
   (C2_amended.2.2.2 (MAX2870spf.spfInitialState 5500000550)).1 rfl,
   (C2_amended.2.2.2
      { MAX2870spf.spfInitialState 5500000550 with NegativeFrequencyError := true }).2 rfl⟩

/-- C2 counterexample, both scripts.  Fixed-reference script at reference
50500000 Hz and RF 5897342159 Hz: the run reports a fractional result whose
error field is the untouched initialization value 50500000, while the
residual of the reported tuple (R = 1, Int = 1, MOD = 2, FRAC = 0) is
5846842159.  Reference-sweep script, on its faithful MOD loop (reference
10, PFD frequency 10, remainder 49/10, Int = 3, VCO 349/10): the modulus-2
candidate has error -1/10 and becomes the best (fields MOD = 2, FRAC = 1,
flag set), then the modulus-3 candidate has error +47/30, which does not
improve the best but still clears `NegativeFrequencyError`; the final state
therefore reports +1/10 although the residual of its reported tuple is
-1/10.  Moreover a positive error is reported without the divider scaling
(a state with divider exponent 1 still reports 1/10, not 1/20), while a
negative one is scaled (-1/20). -/
theorem C2_counterexample :
    MAX2870pf.pfCalculate 50500000 5897342159 =
      .FractionalResult (MAX2870pf.initPFState 50500000 true) 1 0 ∧
    MAX2870pf.initPFState 50500000 true =
      { FrequencyError := 50500000, NegativeFrequencyError := false, MatchingR := 1,
        MatchingInt := 1, MatchingMod := 2, MatchingFrac := 0, MatchAttempted := true } ∧
    MAX2870pf.pfReportedFrequencyError (MAX2870pf.initPFState 50500000 true) 1 = 50500000 ∧
    MAX2870pf.TupleResidual 50500000 5897342159 1 1 2 0 = 5846842159 ∧
    (50500000 : ℚ) ≠ 5846842159 ∧
    MAX2870spf.CandidateError 10 (49/10) 2 = -(1/10) ∧
    MAX2870spf.CandidateError 10 (49/10) 3 = 47/30 ∧
    MAX2870spf.ModLoopSPF 10 10 (49/10) 1 3 2 2
      { FrequencyError := 100, NegativeFrequencyError := false, IntegerMode := false,
        FractionalMode := true, MatchAttempted := true, FinalReferenceFrequency := 0,
        MatchingR := 1, MatchingInt := 1, MatchingMod := 2, MatchingFrac := 0,
        MatchingDivider_PowerOf2 := 0, DesiredFrequency := 349/10 } =
      { FrequencyError := 1/10, NegativeFrequencyError := false, IntegerMode := false,
        FractionalMode := true, MatchAttempted := true, FinalReferenceFrequency := 10,
        MatchingR := 1, MatchingInt := 3, MatchingMod := 2, MatchingFrac := 1,
        MatchingDivider_PowerOf2 := 0, DesiredFrequency := 349/10 } ∧
    MAX2870spf.spfReportedFrequencyError
      { FrequencyError := 1/10, NegativeFrequencyError := false, IntegerMode := false,
        FractionalMode := true, MatchAttempted := true, FinalReferenceFrequency := 10,
        MatchingR := 1, MatchingInt := 3, MatchingMod := 2, MatchingFrac := 1,
        MatchingDivider_PowerOf2 := 0, DesiredFrequency := 349/10 } = 1/10 ∧
    MAX2870pf.TupleResidual 10 (349/10) 1 3 2 1 = -(1/10) ∧
    ((1 : ℚ)/10) ≠ -(1/10) ∧
    MAX2870spf.spfReportedFrequencyError
      { FrequencyError := 1/10, NegativeFrequencyError := false, IntegerMode := false,
        FractionalMode := true, MatchAttempted := true, FinalReferenceFrequency := 10,
        MatchingR := 1, MatchingInt := 3, MatchingMod := 2, MatchingFrac := 1,
        MatchingDivider_PowerOf2 := 1, DesiredFrequency := 349/10 } = 1/10 ∧
    MAX2870spf.spfReportedFrequencyError
      { FrequencyError := 1/10, NegativeFrequencyError := true, IntegerMode := false,
        FractionalMode := true, MatchAttempted := true, FinalReferenceFrequency := 10,
        MatchingR := 1, MatchingInt := 3, MatchingMod := 2, MatchingFrac := 1,
        MatchingDivider_PowerOf2 := 1, DesiredFrequency := 349/10 } = -(1/20) :=
  ⟨MAX2870pf.pfCalculate_eval, by decide, by decide, by decide, by decide, by decide,
   by decide, by decide, by decide, by decide, by decide, by decide, by decide⟩
